import Mathlib

/-!
Verification of the SmartScanner boundary-fusion and stabilization engine.

This file gives a shallow embedding, over the real numbers, of the geometric
validator, the temporal stabilizer (smoothing, movement gating, hysteretic
lock state machine), the corner orderer, the partial-rectangle completion,
the detection arbitrators and the rectifier sizing logic of the application,
together with theorems settling the specification claims about them.

JavaScript floating-point numbers are modelled as real numbers; `Math.sqrt`,
`Math.acos`, `Math.atan2` and `Math.round` are modelled by `Real.sqrt`,
`Real.arccos`, a JS-faithful `atan2` built from `Real.arctan`, and
`⌊x + 1/2⌋`.  `Array.prototype.sort` (stable since ES2019) is modelled by
Mathlib's stable `List.insertionSort`.  Structured values forced to be
well-formed by the embedding's types (no `NaN`, exactly four corners) make
the corresponding defensive checks in the source trivially true.
-/

noncomputable section
open Classical Real

namespace SmartScanner

/-- A 2-D point `{x, y}` with real coordinates. -/
structure Point where
  x : ℝ
  y : ℝ
deriving DecidableEq

/-- A quadrilateral `{tl, tr, br, bl}` with fixed corner roles. -/
structure Quad where
  tl : Point
  tr : Point
  br : Point
  bl : Point
deriving DecidableEq

namespace RectangleMath

/-- `CONFIG.JITTER_THRESHOLD` (pixels). -/
def JITTER_THRESHOLD : ℝ := 6

/-- `CONFIG.STABLE_FRAMES_REQUIRED`. -/
def STABLE_FRAMES_REQUIRED : ℕ := 8

/-- `CONFIG.UNLOCK_MOVEMENT` (pixels). -/
def UNLOCK_MOVEMENT : ℝ := 15

/-- `CONFIG.UNLOCK_FRAMES`. -/
def UNLOCK_FRAMES : ℕ := 2

/-- `CONFIG.SMOOTHING_ALPHA_LOCKED`. -/
def SMOOTHING_ALPHA_LOCKED : ℝ := 0.75

/-- `CONFIG.SMOOTHING_ALPHA_UNLOCKED`. -/
def SMOOTHING_ALPHA_UNLOCKED : ℝ := 0.50

/-- `CONFIG.ANGLE_MIN` (degrees). -/
def ANGLE_MIN : ℝ := 30

/-- `CONFIG.ANGLE_MAX` (degrees). -/
def ANGLE_MAX : ℝ := 150

/-- The detection mode (`this.mode`), selecting threshold sets. -/
inductive Mode where
  | preview
  | capture
  | book
deriving DecidableEq

/-- Mode-dependent parallel-edge ratio bound (`getMaxParallelRatio`):
`PARALLEL_RATIO_PREVIEW = 1.8`, `PARALLEL_RATIO_CAPTURE = 2.0`,
`PARALLEL_RATIO_BOOK = 2.5`. -/
def getMaxParallelRatio : Mode → ℝ
  | .capture => 2.0
  | .book => 2.5
  | .preview => 1.8

/-- Euclidean distance between two points (`RectangleMath.distance`). -/
def distance (p1 p2 : Point) : ℝ :=
  Real.sqrt ((p2.x - p1.x) ^ 2 + (p2.y - p1.y) ^ 2)

/-- Mean per-corner movement between two corner sets
(`averageCornerMovement`). -/
def averageCornerMovement (c1 c2 : Quad) : ℝ :=
  (distance c1.tl c2.tl + distance c1.tr c2.tr +
   distance c1.br c2.br + distance c1.bl c2.bl) / 4

/-- EMA step for a single point (`smoothPoint`):
`alpha * prev + (1 - alpha) * next`. -/
def smoothPoint (prev next : Point) (alpha : ℝ) : Point :=
  { x := alpha * prev.x + (1 - alpha) * next.x
    y := alpha * prev.y + (1 - alpha) * next.y }

/-- Per-corner EMA of a whole quad, as in `applyTemporalSmoothing`'s body. -/
def smoothQuad (prev next : Quad) (alpha : ℝ) : Quad :=
  { tl := smoothPoint prev.tl next.tl alpha
    tr := smoothPoint prev.tr next.tr alpha
    br := smoothPoint prev.br next.br alpha
    bl := smoothPoint prev.bl next.bl alpha }

/-- `cloneCorners` — in the pure embedding a structural copy is the value
itself. -/
def cloneCorners (c : Quad) : Quad :=
  { tl := { x := c.tl.x, y := c.tl.y }
    tr := { x := c.tr.x, y := c.tr.y }
    br := { x := c.br.x, y := c.br.y }
    bl := { x := c.bl.x, y := c.bl.y } }

/-- The reasons recorded in `state.lastRejectReason` (the source stores
debug strings; the structured tags are kept here). -/
inductive RejectReason where
  | no_detection
  | invalid_corners_structure
  | invalid_corners
  | not_convex
  | parallel_ratio
  | area_too_small
  | triangle_shape
  | corner_outside_frame
  | extreme_angle
deriving DecidableEq

/-- The mutable `RectangleMath.state` record.  `previousCorners` is written
by `updateStabilityLock` although it is absent from the initial literal and
from `reset()` (reading it before first assignment yields `undefined`,
i.e. `none`).  `frameHistory` is declared in the source but never used, so
it is omitted. -/
structure RMState where
  smoothedCorners : Option Quad := none
  previousGatedCorners : Option Quad := none
  stableFrameCount : ℕ := 0
  unlockFrameCount : ℕ := 0
  lockedRectangle : Option Quad := none
  isLocked : Bool := false
  previousCorners : Option Quad := none
  lastRejectReason : Option RejectReason := none
  rejectCount : ℕ := 0
deriving DecidableEq

/-- `reset()` — restore the initial state literal (which, like the original
object literal, leaves `previousCorners` undefined). -/
def reset : RMState := {}

/-- `unlock()` — force-unlock, clearing the locked rectangle and the stable
frame count. -/
def unlock (s : RMState) : RMState :=
  { s with isLocked := false, lockedRectangle := none, stableFrameCount := 0 }

/-- `getLockedCorners()` — the locked rectangle when locked, else `null`. -/
def getLockedCorners (s : RMState) : Option Quad :=
  match s.isLocked, s.lockedRectangle with
  | true, some locked => some (cloneCorners locked)
  | _, _ => none

/-- `applyTemporalSmoothing` — EMA with the lock-state-dependent alpha;
first frame initializes the smoothed corners and returns the input
unchanged. -/
def applyTemporalSmoothing (s : RMState) (newCorners : Quad) :
    RMState × Quad :=
  match s.smoothedCorners with
  | none => ({ s with smoothedCorners := some (cloneCorners newCorners) }, newCorners)
  | some prev =>
      let alpha := if s.isLocked then SMOOTHING_ALPHA_LOCKED
                   else SMOOTHING_ALPHA_UNLOCKED
      let smoothed := smoothQuad prev newCorners alpha
      ({ s with smoothedCorners := some smoothed }, smoothed)

/-- `applyMovementGating` — keep the previous gated corners when the mean
movement is below `JITTER_THRESHOLD`, otherwise adopt (and record) the new
smoothed corners. -/
def applyMovementGating (s : RMState) (corners : Quad) : RMState × Quad :=
  match s.previousGatedCorners with
  | none => ({ s with previousGatedCorners := some (cloneCorners corners) }, corners)
  | some prevGated =>
      let movement := averageCornerMovement prevGated corners
      if movement < JITTER_THRESHOLD then
        (s, prevGated)
      else
        ({ s with previousGatedCorners := some (cloneCorners corners) }, corners)

/-- `updateStabilityLock` — the hysteretic lock state machine.  While locked
(with a locked rectangle present): movement beyond `UNLOCK_MOVEMENT` for
`UNLOCK_FRAMES` consecutive frames unlocks and re-seeds smoothing; otherwise
the frozen locked rectangle is returned.  While unlocked: stable frames
(movement below `JITTER_THRESHOLD * 2` versus the previous frame) are
counted, unstable frames decay the count by 2, and reaching
`STABLE_FRAMES_REQUIRED` locks with a snapshot of the current corners. -/
def updateStabilityLock (s : RMState) (corners : Quad) : RMState × Quad :=
  match s.isLocked, s.lockedRectangle with
  | true, some locked =>
      let movement := averageCornerMovement locked corners
      if movement > UNLOCK_MOVEMENT then
        let u := s.unlockFrameCount + 1
        if u ≥ UNLOCK_FRAMES then
          ({ s with isLocked := false, lockedRectangle := none,
                    stableFrameCount := 0, unlockFrameCount := 0,
                    smoothedCorners := some (cloneCorners corners) },
           corners)
        else
          ({ s with unlockFrameCount := u }, locked)
      else
        ({ s with unlockFrameCount := 0 }, locked)
  | _, _ =>
      let s1 :=
        match s.previousCorners with
        | some prev =>
            if averageCornerMovement prev corners < JITTER_THRESHOLD * 2 then
              { s with stableFrameCount := s.stableFrameCount + 1 }
            else
              { s with stableFrameCount := s.stableFrameCount - 2 }
        | none => { s with stableFrameCount := 1 }
      let s2 := { s1 with previousCorners := some (cloneCorners corners) }
      if s2.stableFrameCount ≥ STABLE_FRAMES_REQUIRED then
        ({ s2 with isLocked := true,
                   lockedRectangle := some (cloneCorners corners),
                   unlockFrameCount := 0 },
         cloneCorners corners)
      else
        (s2, corners)

/-- `handleNoDetection` — while locked keep showing the locked rectangle
(with no other state change); otherwise decay `stableFrameCount` by 1
(floored at 0, via truncated subtraction) and report nothing. -/
def handleNoDetection (s : RMState) : RMState × Option Quad :=
  match s.isLocked, s.lockedRectangle with
  | true, some locked => (s, some locked)
  | _, _ => ({ s with stableFrameCount := s.stableFrameCount - 1 }, none)

/-- `handleInvalidDetection` — fall back to the smoothed corners with decay
while more than 2 stable frames are banked, else behave as no detection. -/
def handleInvalidDetection (s : RMState) : RMState × Option Quad :=
  match s.smoothedCorners with
  | some smoothed =>
      if s.stableFrameCount > 2 then
        ({ s with stableFrameCount := s.stableFrameCount - 1 }, some smoothed)
      else
        handleNoDetection s
  | none => handleNoDetection s

/-- Cross product of consecutive edge vectors at `p2`, as computed inside
`isConvex`: `(p2 - p1) × (p3 - p2)`. -/
def crossAt (p1 p2 p3 : Point) : ℝ :=
  (p2.x - p1.x) * (p3.y - p2.y) - (p2.y - p1.y) * (p3.x - p2.x)

/-- The sign-consistency loop of `isConvex`: walk the cross products,
remembering the first nonzero sign and failing on any sign change. -/
def sameSignFold : Option Bool → List ℝ → Bool
  | _, [] => true
  | sign, cross :: rest =>
      if cross = 0 then sameSignFold sign rest
      else
        let newSign := decide (cross > 0)
        match sign with
        | none => sameSignFold (some newSign) rest
        | some sg => if newSign = sg then sameSignFold (some sg) rest else false

/-- `isConvex` — uniform sign of the cross products around
`[tl, tr, br, bl]` (zero-magnitude turns ignored). -/
def isConvex (c : Quad) : Bool :=
  sameSignFold none
    [crossAt c.tl c.tr c.br, crossAt c.tr c.br c.bl,
     crossAt c.br c.bl c.tl, crossAt c.bl c.tl c.tr]

/-- Result of `checkParallelEdgeRatioWithDetails` (the debug width/height
fields are omitted; only `valid` and the two ratios are consumed). -/
structure ParallelCheck where
  valid : Bool
  horizRatio : ℝ
  vertRatio : ℝ

/-- `checkParallelEdgeRatioWithDetails` — opposite-edge length ratios versus
the mode-dependent bound. -/
def checkParallelEdgeRatioWithDetails (c : Quad) (mode : Mode) : ParallelCheck :=
  let topWidth := distance c.tl c.tr
  let bottomWidth := distance c.bl c.br
  let leftHeight := distance c.tl c.bl
  let rightHeight := distance c.tr c.br
  let horizRatio := max topWidth bottomWidth / min topWidth bottomWidth
  let vertRatio := max leftHeight rightHeight / min leftHeight rightHeight
  let maxAllowed := getMaxParallelRatio mode
  { valid := decide (horizRatio ≤ maxAllowed ∧ vertRatio ≤ maxAllowed)
    horizRatio := horizRatio
    vertRatio := vertRatio }

/-- `getSideLengths` — the four side lengths (top, right, bottom, left),
as a fixed quadruple since the source array always has four entries. -/
def getSideLengths (c : Quad) : ℝ × ℝ × ℝ × ℝ :=
  (distance c.tl c.tr, distance c.tr c.br,
   distance c.br c.bl, distance c.bl c.tl)

/-- `quadArea` — shoelace formula over `[tl, tr, br, bl]`. -/
def quadArea (c : Quad) : ℝ :=
  |c.tl.x * c.tr.y - c.tr.x * c.tl.y
   + c.tr.x * c.br.y - c.br.x * c.tr.y
   + c.br.x * c.bl.y - c.bl.x * c.br.y
   + c.bl.x * c.tl.y - c.tl.x * c.bl.y| / 2

/-- Interior angle at vertex `p2` with neighbours `p1`, `p3`
(`Math.acos` of the normalized dot product, converted to degrees), as in
the body of `calculateInternalAngles`. -/
def angleAt (p1 p2 p3 : Point) : ℝ :=
  let v1x := p1.x - p2.x
  let v1y := p1.y - p2.y
  let v2x := p3.x - p2.x
  let v2y := p3.y - p2.y
  let dot := v1x * v2x + v1y * v2y
  let mag1 := Real.sqrt (v1x * v1x + v1y * v1y)
  let mag2 := Real.sqrt (v2x * v2x + v2y * v2y)
  Real.arccos (dot / (mag1 * mag2)) * (180 / Real.pi)

/-- `calculateInternalAngles` — the four interior angles in vertex order
`tl, tr, br, bl` (each vertex with its cyclic neighbours). -/
def calculateInternalAngles (c : Quad) : List ℝ :=
  [angleAt c.bl c.tl c.tr, angleAt c.tl c.tr c.br,
   angleAt c.tr c.br c.bl, angleAt c.br c.bl c.tl]

/-- `hasValidCorners` — the source checks for missing fields and `NaN`
coordinates; the embedding's types exclude both, so the check is
identically true. -/
def hasValidCorners (_ : Quad) : Bool := true

/-- Result of `validateAndCorrect`: the corners unchanged, or `null` plus
the recorded reject reason. -/
inductive VResult where
  | ok (corners : Quad)
  | rejected (reason : RejectReason)
deriving DecidableEq

/-- `validateAndCorrect` — the hard geometric rejection rules, in source
order: structural validity, convexity, parallel-edge ratio, minimum area
(1% of the frame), triangle-likeness (min side < 15% of max side), frame
containment with a 5% margin, and extreme interior angles (< 6° or
> 174°).  There is no diagonal-ratio rule. -/
def validateAndCorrect (corners : Quad) (frameW frameH : ℝ) (mode : Mode) :
    VResult :=
  if ¬ hasValidCorners corners then .rejected .invalid_corners
  else if ¬ isConvex corners then .rejected .not_convex
  else if ¬ (checkParallelEdgeRatioWithDetails corners mode).valid then
    .rejected .parallel_ratio
  else
    let area := quadArea corners
    let areaRatio := area / (frameW * frameH)
    if areaRatio < 0.01 then .rejected .area_too_small
    else
      let sides := getSideLengths corners
      let maxSide := max (max (max sides.1 sides.2.1) sides.2.2.1) sides.2.2.2
      let minSide := min (min (min sides.1 sides.2.1) sides.2.2.1) sides.2.2.2
      if minSide / maxSide < 0.15 then .rejected .triangle_shape
      else
        let margin := min frameW frameH * 0.05
        let outside := fun (p : Point) =>
          p.x < -margin ∨ p.x > frameW + margin ∨
          p.y < -margin ∨ p.y > frameH + margin
        if outside corners.tl ∨ outside corners.tr ∨
           outside corners.br ∨ outside corners.bl then
          .rejected .corner_outside_frame
        else
          let angles := calculateInternalAngles corners
          if angles.any (fun a => decide (a < 6 ∨ a > 174)) then
            .rejected .extreme_angle
          else .ok corners

/-- `Math.atan2 y x` with the JS branch structure (signed zeros aside). -/
def atan2 (y x : ℝ) : ℝ :=
  if 0 < x then Real.arctan (y / x)
  else if x < 0 ∧ 0 ≤ y then Real.arctan (y / x) + Real.pi
  else if x < 0 ∧ y < 0 then Real.arctan (y / x) - Real.pi
  else if 0 < y then Real.pi / 2
  else if y < 0 then -(Real.pi / 2)
  else 0

/-- An entry of the `withAngles` working array in `sortCorners`. -/
structure AnglePoint where
  x : ℝ
  y : ℝ
  angle : ℝ
  idx : ℕ
deriving DecidableEq

/-- The clockwise-from-north sort key of `sortCorners`:
`Math.atan2(p.x - cx, -(p.y - cy))`. -/
def angleKey (p : Point) (cx cy : ℝ) : ℝ :=
  atan2 (p.x - cx) (-(p.y - cy))

/-- The comparator `(a, b) => a.angle - b.angle` as the ≤ relation used by
the stable sort. -/
def byAngle (a b : AnglePoint) : Prop := a.angle ≤ b.angle

/-- `sortCorners` — canonicalize 4 points into `{tl, tr, br, bl}`: sort by
angle about the centroid (clockwise from north, stable sort), then rotate
so the first-scanned minimum of the top-left score `(x - cx) + (y - cy)`
becomes `tl`.  Returns `null` unless exactly 4 points are given. -/
def sortCorners (pts : List Point) : Option Quad :=
  match pts with
  | [p0, p1, p2, p3] =>
      let cx := (p0.x + p1.x + p2.x + p3.x) / 4
      let cy := (p0.y + p1.y + p2.y + p3.y) / 4
      let withAngles : List AnglePoint :=
        [⟨p0.x, p0.y, angleKey p0 cx cy, 0⟩,
         ⟨p1.x, p1.y, angleKey p1 cx cy, 1⟩,
         ⟨p2.x, p2.y, angleKey p2 cx cy, 2⟩,
         ⟨p3.x, p3.y, angleKey p3 cx cy, 3⟩]
      match withAngles.insertionSort byAngle with
      | [a, b, c, d] =>
          let score := fun (p : AnglePoint) => (p.x - cx) + (p.y - cy)
          let r1 := if score b < score a then (score b, 1) else (score a, 0)
          let r2 := if score c < r1.1 then (score c, 2) else r1
          let i3 := if score d < r2.1 then 3 else r2.2
          let mk := fun (w : AnglePoint) => Point.mk w.x w.y
          some (match i3 with
            | 1 => ⟨mk b, mk c, mk d, mk a⟩
            | 2 => ⟨mk c, mk d, mk a, mk b⟩
            | 3 => ⟨mk d, mk a, mk b, mk c⟩
            | _ => ⟨mk a, mk b, mk c, mk d⟩)
      | _ => none
  | _ => none

/-- `ensureOrdered` — re-canonicalize a corners object (field presence is
guaranteed by the embedding's types). -/
def ensureOrdered (corners : Quad) : Option Quad :=
  sortCorners [corners.tl, corners.tr, corners.br, corners.bl]

/-- `completePartialRectangle` — indices whose angle lies outside
`[ANGLE_MIN - 10, ANGLE_MAX + 10]` are flagged; with exactly one flagged
corner it is rebuilt by the parallelogram identity, otherwise `null`.
(An out-of-range index would fall through the `switch` and leave the
corners unchanged, as in the source.) -/
def completePartialRectangle (corners : Quad) (angles : List ℝ) :
    Option Quad :=
  let badIndices :=
    (angles.enum.filter
      (fun ia => decide (ia.2 < ANGLE_MIN - 10 ∨ ia.2 > ANGLE_MAX + 10))).map
      (fun ia => ia.1)
  match badIndices with
  | [i] =>
      if i = 0 then
        some { corners with tl := ⟨corners.tr.x + corners.bl.x - corners.br.x,
                                   corners.tr.y + corners.bl.y - corners.br.y⟩ }
      else if i = 1 then
        some { corners with tr := ⟨corners.tl.x + corners.br.x - corners.bl.x,
                                   corners.tl.y + corners.br.y - corners.bl.y⟩ }
      else if i = 2 then
        some { corners with br := ⟨corners.tr.x + corners.bl.x - corners.tl.x,
                                   corners.tr.y + corners.bl.y - corners.tl.y⟩ }
      else if i = 3 then
        some { corners with bl := ⟨corners.tl.x + corners.br.x - corners.tr.x,
                                   corners.tl.y + corners.br.y - corners.tr.y⟩ }
      else some corners
  | _ => none

/-- The accepted-frame tail of `process` (steps 4–6): temporal smoothing,
movement gating, then the stability lock. -/
def acceptedFrameStep (s : RMState) (corners : Quad) : RMState × Quad :=
  let sc1 := applyTemporalSmoothing s corners
  let sc2 := applyMovementGating sc1.1 sc1.2
  updateStabilityLock sc2.1 sc2.2

/-- Feed a sequence of corner sets through the stability lock state
machine, keeping the resulting state. -/
def foldStabilityLock (s : RMState) (Qs : List Quad) : RMState :=
  Qs.foldl (fun t q => (updateStabilityLock t q).1) s

/-- `process` — the per-frame pipeline:
`ensureOrdered → validateAndCorrect → smooth → gate → lock`, with the
no-detection and invalid-detection fallbacks and reject bookkeeping. -/
def process (s : RMState) (rawCorners : Option Quad) (frameW frameH : ℝ)
    (mode : Mode) : RMState × Option Quad :=
  let s0 := { s with lastRejectReason := none }
  match rawCorners with
  | none =>
      handleNoDetection { s0 with lastRejectReason := some .no_detection }
  | some raw =>
      match ensureOrdered raw with
      | none =>
          handleInvalidDetection
            { s0 with lastRejectReason := some .invalid_corners_structure,
                      rejectCount := s0.rejectCount + 1 }
      | some corners =>
          match validateAndCorrect corners frameW frameH mode with
          | .rejected r =>
              handleInvalidDetection
                { s0 with lastRejectReason := some r,
                          rejectCount := s0.rejectCount + 1 }
          | .ok corners =>
              let sc3 := acceptedFrameStep { s0 with rejectCount := 0 } corners
              (sc3.1, some sc3.2)

/-- The public operations that mutate the stabilizer state within a
session: a processed frame, `reset()`, and `unlock()`. -/
inductive Op where
  | proc (rawCorners : Option Quad) (frameW frameH : ℝ) (mode : Mode)
  | reset
  | unlock

/-- Apply one public operation to the state. -/
def applyOp (s : RMState) : Op → RMState
  | .proc raw fw fh m => (process s raw fw fh m).1
  | .reset => reset
  | .unlock => unlock s

/-- Run a sequence of public operations from the initial state. -/
def runOps (ops : List Op) : RMState :=
  ops.foldl applyOp reset

/-- The lock-state consistency predicate: locked states carry a locked
rectangle. -/
def lockInvariant (s : RMState) : Bool :=
  !s.isLocked || s.lockedRectangle.isSome

end RectangleMath

namespace Geometry

/-- `Geometry.cornerDistance` — mean per-corner distance between two corner
sets (call sites guard against `null` arguments, so the embedding takes
quads directly). -/
def cornerDistance (c1 c2 : Quad) : ℝ :=
  (Real.sqrt ((c1.tl.x - c2.tl.x) ^ 2 + (c1.tl.y - c2.tl.y) ^ 2) +
   Real.sqrt ((c1.tr.x - c2.tr.x) ^ 2 + (c1.tr.y - c2.tr.y) ^ 2) +
   Real.sqrt ((c1.br.x - c2.br.x) ^ 2 + (c1.br.y - c2.br.y) ^ 2) +
   Real.sqrt ((c1.bl.x - c2.bl.x) ^ 2 + (c1.bl.y - c2.bl.y) ^ 2)) / 4

/-- `Geometry.fixWeakCorner` — the source is a stub that returns the
corners unchanged ("Can implement parallelogram completion if needed"). -/
def fixWeakCorner (corners : Option Quad) : Option Quad :=
  corners

end Geometry

/-- An abstract canvas/image: dimensions plus an identity for its pixel
content (pixel data itself is outside the embedded fragment). -/
structure Canvas where
  width : ℤ
  height : ℤ
  content : ℕ
deriving DecidableEq

/-- Failures thrown by the external OpenCV calls
(`getPerspectiveTransform` / `warpPerspective` on a degenerate quad). -/
inductive CvError where
  | singularTransform
deriving DecidableEq

namespace ImageProcessor

/-- `ImageProcessor.distance`. -/
def distance (p1 p2 : Point) : ℝ :=
  Real.sqrt ((p2.x - p1.x) ^ 2 + (p2.y - p1.y) ^ 2)

/-- `Math.round` for the nonnegative quantities arising here:
`⌊x + 1/2⌋`. -/
def jround (x : ℝ) : ℤ :=
  ⌊x + 1 / 2⌋

/-- `CONFIG.OUTPUT.MAX_DIMENSION`. -/
def MAX_DIMENSION : ℤ := 4096

/-- The output-dimension computation of `perspectiveCorrect`: width and
height are the rounded maxima of the opposite edge lengths; if either
exceeds `maxDim`, both are rescaled by `maxDim / max(outWidth, outHeight)`
and re-rounded. -/
def perspectiveOutputDims (corners : Quad) (maxDim : ℤ) : ℤ × ℤ :=
  let widthTop := distance corners.tl corners.tr
  let widthBottom := distance corners.bl corners.br
  let heightLeft := distance corners.tl corners.bl
  let heightRight := distance corners.tr corners.br
  let outWidth := jround (max widthTop widthBottom)
  let outHeight := jround (max heightLeft heightRight)
  if outWidth > maxDim ∨ outHeight > maxDim then
    let scale : ℝ := (maxDim : ℝ) / ((max outWidth outHeight : ℤ) : ℝ)
    (jround ((outWidth : ℝ) * scale), jround ((outHeight : ℝ) * scale))
  else (outWidth, outHeight)

/-- The sizing rule as the spec states it (§4.6 Rectifier, steps 1–2):
output width is the rounded maximum of the top and bottom edge lengths,
output height the rounded maximum of the left and right edge lengths; if
either exceeds the configured maximum, both are scaled by the common
factor `maxDim / max(width, height)`, preserving aspect ratio. -/
def specRectifySizing (corners : Quad) (maxDim : ℤ) : ℤ × ℤ :=
  let topWidth := distance corners.tl corners.tr
  let bottomWidth := distance corners.bl corners.br
  let leftHeight := distance corners.tl corners.bl
  let rightHeight := distance corners.tr corners.br
  let width := jround (max topWidth bottomWidth)
  let height := jround (max leftHeight rightHeight)
  if width > maxDim ∨ height > maxDim then
    let factor : ℝ := (maxDim : ℝ) / ((max width height : ℤ) : ℝ)
    (jround ((width : ℝ) * factor), jround ((height : ℝ) * factor))
  else (width, height)

/-- `perspectiveCorrect` — returns the source canvas untouched when OpenCV
is not ready; otherwise runs the OpenCV warp (modelled by the external
`warp` behaviour, applied at the computed output dimensions).  The source's
`try` block carries only a `finally` (Mat cleanup) and no `catch`, so an
exception thrown by the OpenCV calls propagates to the caller; this is
modelled by returning the unhandled `Except` result. -/
def perspectiveCorrect (cvReady : Bool) (src : Canvas) (corners : Quad)
    (warp : ℤ × ℤ → Except CvError Canvas) : Except CvError Canvas :=
  if ¬ cvReady then .ok src
  else warp (perspectiveOutputDims corners MAX_DIMENSION)

/-- `cleanEdges` with the shipped `EDGE_CROP` config (enabled, top 1%,
right 1%, bottom 0.5%, left 1%, 5-pixel white border), acting on the
canvas dimensions. -/
def cleanEdges (c : Canvas) : Canvas :=
  let cropT := jround ((c.height : ℝ) * 1.0 / 100)
  let cropR := jround ((c.width : ℝ) * 1.0 / 100)
  let cropB := jround ((c.height : ℝ) * 0.5 / 100)
  let cropL := jround ((c.width : ℝ) * 1.0 / 100)
  { width := c.width - cropL - cropR + 2 * 5
    height := c.height - cropT - cropB + 2 * 5
    content := c.content }

end ImageProcessor

namespace App

/-- `CONFIG.HEATMAP.CONFIDENCE_TRUSTED`. -/
def CONFIDENCE_TRUSTED : ℝ := 0.25

/-- `CONFIG.HEATMAP.CONFIDENCE_RESCUE`. -/
def CONFIDENCE_RESCUE : ℝ := 0.30

/-- `CONFIG.CORNER.AGREEMENT_DISTANCE`. -/
def AGREEMENT_DISTANCE : ℝ := 30

/-- `CONFIG.DETECTION.MIN_EDGE_DENSITY`. -/
def MIN_EDGE_DENSITY : ℝ := 0.15

/-- A heatmap detection: corners plus the `_confidence` annotation. -/
structure HeatmapResult where
  corners : Quad
  confidence : ℝ

/-- `heatmapResult && heatmapResult._confidence >= CONFIDENCE_TRUSTED`. -/
def heatmapTrustedB (h : Option HeatmapResult) : Bool :=
  match h with
  | some hr => decide (hr.confidence ≥ CONFIDENCE_TRUSTED)
  | none => false

/-- The legacy arbitrator of `app.js` (duplicated in `pdf.js`): agreement
returns the opencv candidate, any opencv candidate wins otherwise, and
with no opencv candidate the heatmap candidate is returned only when both
trusted and at rescue confidence. -/
def arbitrateDetection (opencvResult : Option Quad)
    (heatmapResult : Option HeatmapResult) : Option Quad :=
  let heatmapTrusted := heatmapTrustedB heatmapResult
  let inAgreement :=
    match heatmapResult, opencvResult with
    | some hr, some oq =>
        heatmapTrusted &&
        decide (Geometry.cornerDistance hr.corners oq < AGREEMENT_DISTANCE)
    | _, _ => false
  if opencvResult.isSome && heatmapTrusted && inAgreement then opencvResult
  else if opencvResult.isSome then opencvResult
  else
    match heatmapResult with
    | some hr =>
        if heatmapTrusted && decide (hr.confidence ≥ CONFIDENCE_RESCUE) then
          some hr.corners
        else none
    | none => none

/-- The edge-density arbitrator of the newer controller: priorities A–E
(high-confidence with passing edge check, agreement, trusted with edge
verification, opencv fallback, nothing).  `edgeDensity` is the external
`OpenCVDetector.edgeDensity` score of a quad against the current image. -/
def arbitrateDetectionEdge (opencvResult : Option Quad)
    (heatmapResult : Option HeatmapResult) (edgeDensity : Quad → ℝ) :
    Option Quad :=
  let heatmapTrusted := heatmapTrustedB heatmapResult
  let heatmapHighConfidence :=
    match heatmapResult with
    | some hr => decide (hr.confidence ≥ 0.5)
    | none => false
  let inAgreement :=
    match heatmapResult, opencvResult with
    | some hr, some oq =>
        heatmapTrusted &&
        decide (Geometry.cornerDistance hr.corners oq < AGREEMENT_DISTANCE)
    | _, _ => false
  let edgeCheckPassed :=
    match heatmapResult with
    | some hr =>
        if heatmapHighConfidence && !inAgreement then
          decide (edgeDensity hr.corners ≥ MIN_EDGE_DENSITY)
        else true
    | none => true
  match heatmapResult with
  | some hr =>
      if heatmapHighConfidence && edgeCheckPassed then some hr.corners
      else if opencvResult.isSome && heatmapTrusted && inAgreement then
        some hr.corners
      else if heatmapTrusted && !inAgreement &&
              decide (edgeDensity hr.corners ≥ MIN_EDGE_DENSITY) then
        some hr.corners
      else if opencvResult.isSome then opencvResult
      else none
  | none => if opencvResult.isSome then opencvResult else none

/-- `captureWithCorners` — capture a frame, perspective-correct it and
clean its edges; the surrounding `try/catch` replaces any thrown error by
the original, uncorrected frame, so the capture flow itself never
raises. -/
def captureWithCorners (cvReady : Bool) (frame : Canvas) (corners : Quad)
    (warp : ℤ × ℤ → Except CvError Canvas) : Canvas :=
  match (ImageProcessor.perspectiveCorrect cvReady frame corners warp).map
      ImageProcessor.cleanEdges with
  | .ok processed => processed
  | .error _ => frame

end App

namespace Examples

open RectangleMath

/-- A 100-pixel axis-aligned square used by the concrete test states. -/
def quadA : Quad :=
  ⟨⟨0, 0⟩, ⟨100, 0⟩, ⟨100, 100⟩, ⟨0, 100⟩⟩

/-- Shift every corner of a quad horizontally by `d`. -/
def shiftX (q : Quad) (d : ℝ) : Quad :=
  ⟨⟨q.tl.x + d, q.tl.y⟩, ⟨q.tr.x + d, q.tr.y⟩,
   ⟨q.br.x + d, q.br.y⟩, ⟨q.bl.x + d, q.bl.y⟩⟩

/-- A concrete locked stabilizer state whose locked rectangle is `quadA`. -/
def lockedState : RMState :=
  { smoothedCorners := some quadA
    previousGatedCorners := some quadA
    stableFrameCount := 8
    unlockFrameCount := 0
    lockedRectangle := some quadA
    isLocked := true
    previousCorners := some quadA
    lastRejectReason := some .no_detection
    rejectCount := 0 }

/-- First accepted frame fed to the locked stabilizer: the incoming quad
has jumped 40 pixels right. -/
def c2Frame1 : RMState × Quad :=
  acceptedFrameStep lockedState (shiftX quadA 40)

/-- Second accepted frame: a further small move of the incoming quad. -/
def c2Frame2 : RMState × Quad :=
  acceptedFrameStep c2Frame1.1 (shiftX quadA 12)

/-- A fully degenerate quad (all corners coincide), for which the
projective transform is singular. -/
def degenerateQuad : Quad :=
  ⟨⟨0, 0⟩, ⟨0, 0⟩, ⟨0, 0⟩, ⟨0, 0⟩⟩

/-- An exact parallelogram: `tl + br = tr + bl`. -/
def parQuad : Quad :=
  ⟨⟨0, 0⟩, ⟨4, 0⟩, ⟨5, 2⟩, ⟨1, 2⟩⟩

/-- Root of the discriminant of the quadratic fixing the direction of the
bottom edge of a quad whose four edges measure exactly 100, 120, 150 and
140 pixels. -/
def exRoot : ℝ := Real.sqrt 721094400

/-- Cosine of the bottom-edge direction: the positive root of
`20800 c² − 14560 c − 6119 = 0`. -/
def exCos : ℝ := (14560 + exRoot) / 41600

/-- Sine of the bottom-edge direction, determined by the right-edge length
constraint. -/
def exSin : ℝ := (80 * exCos - 91) / 120

/-- A quad with top edge exactly 100 px, bottom edge 120 px, left edge
150 px and right edge 140 px. -/
def rectExampleQuad : Quad :=
  ⟨⟨0, 0⟩, ⟨100, 0⟩, ⟨120 * exCos, 150 + 120 * exSin⟩, ⟨0, 150⟩⟩

/-- Scale every coordinate of a quad by `k`. -/
def scaleQuad (k : ℝ) (q : Quad) : Quad :=
  ⟨⟨k * q.tl.x, k * q.tl.y⟩, ⟨k * q.tr.x, k * q.tr.y⟩,
   ⟨k * q.br.x, k * q.br.y⟩, ⟨k * q.bl.x, k * q.bl.y⟩⟩

/-- The same quad scaled by 40: edges 4000, 4800, 6000 and 5600 px, large
enough to trigger the maximum-dimension downscaling. -/
def rectExampleQuadBig : Quad := scaleQuad 40 rectExampleQuad

/-- A strongly skewed parallelogram: convex, equal opposite edges, ample
area, interior angles near 63°/117°, but with diagonal lengths √130000 and
√50000 — a diagonal ratio of about 1.61. -/
def skewQuad : Quad :=
  ⟨⟨100, 100⟩, ⟨300, 100⟩, ⟨400, 300⟩, ⟨200, 300⟩⟩

/-- A thin 400 × 40 rectangle: its shortest side is 10% of its longest. -/
def thinQuad : Quad :=
  ⟨⟨100, 100⟩, ⟨500, 100⟩, ⟨500, 140⟩, ⟨100, 140⟩⟩

end Examples

end SmartScanner

namespace SmartScanner

open RectangleMath Examples

/-! ### Elementary evaluation lemmas -/

theorem cloneCorners_eq (c : Quad) : cloneCorners c = c := by
  cases c with
  | mk tl tr br bl =>
    cases tl; cases tr; cases br; cases bl; rfl

theorem distance_self (p : Point) : distance p p = 0 := by
  simp [distance]

theorem averageCornerMovement_self (q : Quad) :
    averageCornerMovement q q = 0 := by
  simp [averageCornerMovement, distance_self]

theorem distance_shiftX (p : Point) (d : ℝ) (hd : 0 ≤ d) :
    distance p ⟨p.x + d, p.y⟩ = d := by
  simp only [distance]
  rw [show (p.x + d - p.x) ^ 2 + (p.y - p.y) ^ 2 = d ^ 2 by ring]
  exact Real.sqrt_sq hd

theorem averageCornerMovement_shiftX (q : Quad) (d : ℝ) (hd : 0 ≤ d) :
    averageCornerMovement q (shiftX q d) = d := by
  simp only [averageCornerMovement, shiftX]
  rw [distance_shiftX q.tl d hd, distance_shiftX q.tr d hd,
      distance_shiftX q.br d hd, distance_shiftX q.bl d hd]
  ring

theorem shiftX_zero (q : Quad) : shiftX q 0 = q := by
  cases q with
  | mk tl tr br bl =>
    cases tl; cases tr; cases br; cases bl
    simp [shiftX]

theorem distance_shiftX_shiftX (p : Point) (a b : ℝ) :
    distance ⟨p.x + a, p.y⟩ ⟨p.x + b, p.y⟩ = |b - a| := by
  simp only [distance]
  rw [show (p.x + b - (p.x + a)) ^ 2 + (p.y - p.y) ^ 2 = (b - a) ^ 2 by ring]
  exact Real.sqrt_sq_eq_abs _

theorem averageCornerMovement_shiftX_shiftX (q : Quad) (a b : ℝ) :
    averageCornerMovement (shiftX q a) (shiftX q b) = |b - a| := by
  simp only [averageCornerMovement, shiftX]
  rw [distance_shiftX_shiftX q.tl a b, distance_shiftX_shiftX q.tr a b,
      distance_shiftX_shiftX q.br a b, distance_shiftX_shiftX q.bl a b]
  ring

theorem smoothQuad_shiftX (q : Quad) (a b α : ℝ) :
    smoothQuad (shiftX q a) (shiftX q b) α =
      shiftX q (α * a + (1 - α) * b) := by
  simp only [smoothQuad, smoothPoint, shiftX, Quad.mk.injEq, Point.mk.injEq]
  and_intros <;> ring

/-! ### Step lemmas for the stabilizer -/

theorem applyTemporalSmoothing_some_locked (s : RMState) (prev C : Quad)
    (h : s.smoothedCorners = some prev) (hL : s.isLocked = true) :
    applyTemporalSmoothing s C =
      ({ s with smoothedCorners := some (smoothQuad prev C SMOOTHING_ALPHA_LOCKED) },
       smoothQuad prev C SMOOTHING_ALPHA_LOCKED) := by
  simp [applyTemporalSmoothing, h, hL]

theorem applyTemporalSmoothing_some_unlocked (s : RMState) (prev C : Quad)
    (h : s.smoothedCorners = some prev) (hL : s.isLocked = false) :
    applyTemporalSmoothing s C =
      ({ s with smoothedCorners := some (smoothQuad prev C SMOOTHING_ALPHA_UNLOCKED) },
       smoothQuad prev C SMOOTHING_ALPHA_UNLOCKED) := by
  simp [applyTemporalSmoothing, h, hL]

theorem applyMovementGating_small (s : RMState) (prevG C : Quad)
    (h : s.previousGatedCorners = some prevG)
    (hm : averageCornerMovement prevG C < JITTER_THRESHOLD) :
    applyMovementGating s C = (s, prevG) := by
  simp [applyMovementGating, h, hm]

theorem applyMovementGating_big (s : RMState) (prevG C : Quad)
    (h : s.previousGatedCorners = some prevG)
    (hm : ¬ averageCornerMovement prevG C < JITTER_THRESHOLD) :
    applyMovementGating s C =
      ({ s with previousGatedCorners := some C }, C) := by
  simp [applyMovementGating, h, hm, cloneCorners_eq]

theorem updateStabilityLock_locked_still (s : RMState) (locked C : Quad)
    (h1 : s.isLocked = true) (h2 : s.lockedRectangle = some locked)
    (hm : ¬ averageCornerMovement locked C > UNLOCK_MOVEMENT) :
    updateStabilityLock s C = ({ s with unlockFrameCount := 0 }, locked) := by
  unfold updateStabilityLock
  rw [h1, h2]
  simp [hm]

theorem updateStabilityLock_locked_counting (s : RMState) (locked C : Quad)
    (h1 : s.isLocked = true) (h2 : s.lockedRectangle = some locked)
    (hm : averageCornerMovement locked C > UNLOCK_MOVEMENT)
    (hu : s.unlockFrameCount + 1 < UNLOCK_FRAMES) :
    updateStabilityLock s C =
      ({ s with unlockFrameCount := s.unlockFrameCount + 1 }, locked) := by
  unfold updateStabilityLock
  rw [h1, h2]
  simp [hm, Nat.not_le.mpr hu]

theorem updateStabilityLock_locked_unlocks (s : RMState) (locked C : Quad)
    (h1 : s.isLocked = true) (h2 : s.lockedRectangle = some locked)
    (hm : averageCornerMovement locked C > UNLOCK_MOVEMENT)
    (hu : s.unlockFrameCount + 1 ≥ UNLOCK_FRAMES) :
    updateStabilityLock s C =
      ({ s with isLocked := false, lockedRectangle := none,
                stableFrameCount := 0, unlockFrameCount := 0,
                smoothedCorners := some C }, C) := by
  unfold updateStabilityLock
  rw [h1, h2]
  simp [hm, hu, cloneCorners_eq]

theorem updateStabilityLock_unlocked_first (s : RMState) (C : Quad)
    (hL : s.isLocked = false) (hp : s.previousCorners = none) :
    updateStabilityLock s C =
      ({ s with stableFrameCount := 1, previousCorners := some C }, C) := by
  unfold updateStabilityLock
  rw [hL, hp]
  simp [STABLE_FRAMES_REQUIRED, cloneCorners_eq]

theorem updateStabilityLock_unlocked_stable (s : RMState) (prev C : Quad)
    (hL : s.isLocked = false) (hp : s.previousCorners = some prev)
    (hm : averageCornerMovement prev C < JITTER_THRESHOLD * 2)
    (hcount : s.stableFrameCount + 1 < STABLE_FRAMES_REQUIRED) :
    updateStabilityLock s C =
      ({ s with stableFrameCount := s.stableFrameCount + 1,
                previousCorners := some C }, C) := by
  unfold updateStabilityLock
  rw [hL, hp]
  simp only [if_pos hm]
  simp [cloneCorners_eq, Nat.not_le.mpr hcount]

theorem updateStabilityLock_unlocked_locks (s : RMState) (prev C : Quad)
    (hL : s.isLocked = false) (hp : s.previousCorners = some prev)
    (hm : averageCornerMovement prev C < JITTER_THRESHOLD * 2)
    (hcount : s.stableFrameCount + 1 ≥ STABLE_FRAMES_REQUIRED) :
    updateStabilityLock s C =
      ({ s with stableFrameCount := s.stableFrameCount + 1,
                previousCorners := some C,
                isLocked := true, lockedRectangle := some C,
                unlockFrameCount := 0 }, C) := by
  unfold updateStabilityLock
  rw [hL, hp]
  simp only [if_pos hm]
  simp [cloneCorners_eq, hcount]

/-! ### C4 — lock/unlock hysteresis boundaries -/

theorem foldStabilityLock_counting :
    ∀ (Qs : List Quad) (s : RMState) (prev : Quad),
      s.isLocked = false → s.previousCorners = some prev →
      (prev :: Qs).Chain'
        (fun a b => averageCornerMovement a b < JITTER_THRESHOLD * 2) →
      s.stableFrameCount + Qs.length < STABLE_FRAMES_REQUIRED →
      foldStabilityLock s Qs =
        { s with stableFrameCount := s.stableFrameCount + Qs.length,
                 previousCorners := (prev :: Qs).getLast? } := by
  intro Qs
  induction Qs with
  | nil =>
      intro s prev hL hp _ _
      cases s
      simp_all [foldStabilityLock]
  | cons q rest ih =>
      intro s prev hL hp hchain hcount
      rw [List.chain'_cons] at hchain
      simp only [List.length_cons] at hcount
      have hstep := updateStabilityLock_unlocked_stable s prev q hL hp
        hchain.1 (by omega)
      have hfold : foldStabilityLock s (q :: rest) =
          foldStabilityLock (updateStabilityLock s q).1 rest := by
        simp [foldStabilityLock]
      rw [hfold, hstep]
      have ih2 := ih { s with stableFrameCount := s.stableFrameCount + 1,
                              previousCorners := some q } q hL rfl hchain.2
        (show s.stableFrameCount + 1 + rest.length < STABLE_FRAMES_REQUIRED by
          omega)
      rw [ih2]
      simp only [List.getLast?_cons_cons, List.length_cons]
      congr 1
      omega

theorem foldStabilityLock_locks :
    ∀ (Qs : List Quad) (s : RMState) (prev : Quad),
      s.isLocked = false → s.previousCorners = some prev →
      (prev :: Qs).Chain'
        (fun a b => averageCornerMovement a b < JITTER_THRESHOLD * 2) →
      s.stableFrameCount + Qs.length = STABLE_FRAMES_REQUIRED →
      Qs ≠ [] →
      (foldStabilityLock s Qs).isLocked = true ∧
      (foldStabilityLock s Qs).lockedRectangle = Qs.getLast? := by
  intro Qs
  induction Qs with
  | nil => intro s prev _ _ _ _ hne; exact absurd rfl hne
  | cons q rest ih =>
      intro s prev hL hp hchain hcount _
      rw [List.chain'_cons] at hchain
      simp only [List.length_cons] at hcount
      cases rest with
      | nil =>
          have hstep := updateStabilityLock_unlocked_locks s prev q hL hp
            hchain.1 (by simp only [List.length_nil] at hcount; omega)
          have hfold : foldStabilityLock s [q] = (updateStabilityLock s q).1 := by
            simp [foldStabilityLock]
          rw [hfold, hstep]
          exact ⟨rfl, rfl⟩
      | cons r rs =>
          have hstep := updateStabilityLock_unlocked_stable s prev q hL hp
            hchain.1 (by simp at hcount; omega)
          have hfold : foldStabilityLock s (q :: r :: rs) =
              foldStabilityLock (updateStabilityLock s q).1 (r :: rs) := by
            simp [foldStabilityLock]
          rw [hfold, hstep]
          have ih2 := ih { s with stableFrameCount := s.stableFrameCount + 1,
                                  previousCorners := some q } q hL rfl hchain.2
            (show s.stableFrameCount + 1 + (r :: rs).length
                = STABLE_FRAMES_REQUIRED by
              simp only [List.length_cons] at hcount ⊢; omega) (by simp)
          simpa [List.getLast?_cons_cons] using ih2

/-- C4: lock/unlock hysteresis boundary.  From the reset state, feeding
exactly `STABLE_FRAMES_REQUIRED` consecutive accepted corner sets whose
mean consecutive movement stays below the stability threshold
(`JITTER_THRESHOLD * 2`) locks the state machine and snapshots the last
corners as the locked quad, while `STABLE_FRAMES_REQUIRED - 1` such frames
do not lock; symmetrically, from a locked state, `UNLOCK_FRAMES` (= 2)
consecutive frames with movement above `UNLOCK_MOVEMENT` versus the locked
quad unlock and clear the locked rectangle, while a single such frame does
not unlock. -/
theorem c4_lock_unlock_hysteresis_boundary :
    (∀ (q : Quad) (Qs : List Quad),
        (q :: Qs).Chain'
          (fun a b => averageCornerMovement a b < JITTER_THRESHOLD * 2) →
        (q :: Qs).length = STABLE_FRAMES_REQUIRED - 1 →
        (foldStabilityLock reset (q :: Qs)).isLocked = false) ∧
    (∀ (q : Quad) (Qs : List Quad),
        (q :: Qs).Chain'
          (fun a b => averageCornerMovement a b < JITTER_THRESHOLD * 2) →
        (q :: Qs).length = STABLE_FRAMES_REQUIRED →
        (foldStabilityLock reset (q :: Qs)).isLocked = true ∧
        (foldStabilityLock reset (q :: Qs)).lockedRectangle =
          (q :: Qs).getLast?) ∧
    (∀ (s : RMState) (L R1 R2 : Quad),
        s.isLocked = true → s.lockedRectangle = some L →
        s.unlockFrameCount = 0 →
        averageCornerMovement L R1 > UNLOCK_MOVEMENT →
        averageCornerMovement L R2 > UNLOCK_MOVEMENT →
        (updateStabilityLock s R1).1.isLocked = true ∧
        (updateStabilityLock s R1).1.lockedRectangle = some L ∧
        (updateStabilityLock (updateStabilityLock s R1).1 R2).1.isLocked
          = false ∧
        (updateStabilityLock (updateStabilityLock s R1).1 R2).1.lockedRectangle
          = none) := by
  refine ⟨?_, ?_, ?_⟩
  · intro q Qs hchain hlen
    simp only [List.length_cons] at hlen
    have hfold : foldStabilityLock reset (q :: Qs) =
        foldStabilityLock (updateStabilityLock reset q).1 Qs := by
      simp [foldStabilityLock]
    rw [hfold, updateStabilityLock_unlocked_first reset q rfl rfl]
    rw [foldStabilityLock_counting Qs _ q rfl rfl hchain
        (show 1 + Qs.length < STABLE_FRAMES_REQUIRED by
          simp only [STABLE_FRAMES_REQUIRED] at hlen ⊢; omega)]
    rfl
  · intro q Qs hchain hlen
    simp only [List.length_cons] at hlen
    have hQs : Qs ≠ [] := by
      intro h
      rw [h] at hlen
      simp [STABLE_FRAMES_REQUIRED] at hlen
    have hfold : foldStabilityLock reset (q :: Qs) =
        foldStabilityLock (updateStabilityLock reset q).1 Qs := by
      simp [foldStabilityLock]
    have hres := foldStabilityLock_locks Qs
      { reset with stableFrameCount := 1, previousCorners := some q } q
      rfl rfl hchain
      (show 1 + Qs.length = STABLE_FRAMES_REQUIRED by omega) hQs
    rw [hfold, updateStabilityLock_unlocked_first reset q rfl rfl]
    cases Qs with
    | nil => exact absurd rfl hQs
    | cons r rs =>
        exact ⟨hres.1, by rw [hres.2, List.getLast?_cons_cons]⟩
  · intro s L R1 R2 h1 h2 h3 hm1 hm2
    have hstep1 := updateStabilityLock_locked_counting s L R1 h1 h2 hm1
      (by rw [h3]; norm_num [UNLOCK_FRAMES])
    have hstep2 := updateStabilityLock_locked_unlocks
      { s with unlockFrameCount := s.unlockFrameCount + 1 } L R2
      (by simpa using h1) (by simpa using h2) hm2
      (show s.unlockFrameCount + 1 + 1 >= UNLOCK_FRAMES by
        simp only [UNLOCK_FRAMES]; omega)
    rw [hstep1]
    exact ⟨h1, h2, by rw [hstep2], by rw [hstep2]⟩

/-- `Chain'` holds on any constant list whose element is self-related. -/
theorem chain'_replicate_self {α : Type} (R : α → α → Prop) (a : α)
    (h : R a a) : ∀ n, List.Chain' R (List.replicate n a) := by
  intro n
  induction n with
  | zero => simp
  | succ m ih =>
      cases m with
      | zero => simp
      | succ k =>
          rw [List.replicate_succ]
          rw [List.replicate_succ] at ih ⊢
          exact List.chain'_cons.mpr ⟨h, ih⟩

/-- Witness for the C4 hysteresis theorem at concrete frame sequences. -/
theorem c4_lock_unlock_hysteresis_boundary_witness :
    ((foldStabilityLock reset
        (Examples.quadA :: List.replicate 6 Examples.quadA)).isLocked
      = false) ∧
    ((foldStabilityLock reset
        (Examples.quadA :: List.replicate 7 Examples.quadA)).isLocked
      = true) ∧
    ((updateStabilityLock Examples.lockedState
        (Examples.shiftX Examples.quadA 20)).1.isLocked = true) ∧
    ((updateStabilityLock
        (updateStabilityLock Examples.lockedState
          (Examples.shiftX Examples.quadA 20)).1
        (Examples.shiftX Examples.quadA 20)).1.isLocked = false) := by
  have hmov : averageCornerMovement Examples.quadA Examples.quadA <
      JITTER_THRESHOLD * 2 := by
    rw [averageCornerMovement_self]
    norm_num [JITTER_THRESHOLD]
  have hchain7 := chain'_replicate_self
    (fun a b => averageCornerMovement a b < JITTER_THRESHOLD * 2)
    Examples.quadA hmov 7
  have hchain8 := chain'_replicate_self
    (fun a b => averageCornerMovement a b < JITTER_THRESHOLD * 2)
    Examples.quadA hmov 8
  have h20 : averageCornerMovement Examples.quadA
      (Examples.shiftX Examples.quadA 20) > UNLOCK_MOVEMENT := by
    rw [averageCornerMovement_shiftX _ _ (by norm_num)]
    norm_num [UNLOCK_MOVEMENT]
  have hu := c4_lock_unlock_hysteresis_boundary.2.2 Examples.lockedState
    Examples.quadA (Examples.shiftX Examples.quadA 20)
    (Examples.shiftX Examples.quadA 20) rfl rfl rfl h20 h20
  refine ⟨?_, ?_, hu.1, hu.2.2.1⟩
  · exact c4_lock_unlock_hysteresis_boundary.1 Examples.quadA
      (List.replicate 6 Examples.quadA)
      (by simpa [List.replicate_succ] using hchain7)
      (by simp [STABLE_FRAMES_REQUIRED])
  · exact (c4_lock_unlock_hysteresis_boundary.2.1 Examples.quadA
      (List.replicate 7 Examples.quadA)
      (by simpa [List.replicate_succ] using hchain8)
      (by simp [STABLE_FRAMES_REQUIRED])).1

/-! ### C3 — no-detection behaviour while locked -/

/-- C3: counterexample.  From a concrete locked stabilizer state, 10000
consecutive no-detection frames (`rawCorners` null) — far beyond any
configured tolerance — leave the stabilizer still Locked with
`stableFrameCount` undecayed: no configured tolerance `K` with the claimed
property exists. -/
theorem c3_noDetection_never_unlocks_cex :
    ((fun t => (process t none 640 480 Mode.preview).1)^[10000]
        Examples.lockedState).isLocked = true ∧
    ((fun t => (process t none 640 480 Mode.preview).1)^[10000]
        Examples.lockedState).stableFrameCount = 8 := by
  have hstep :
      (fun t => (process t none 640 480 Mode.preview).1)
        Examples.lockedState = Examples.lockedState := rfl
  rw [Function.iterate_fixed hstep]
  exact ⟨rfl, rfl⟩

/-- C3 (amended): while the stabilizer is locked, a no-detection frame
returns the locked rectangle and leaves the state entirely unchanged — in
particular it never unlocks, for any number of consecutive no-detection
frames, and `stableFrameCount` does not decay.  The decay-by-1 (floored at
0, via truncated subtraction) applies only in unlocked states, where the
frame reports nothing. -/
theorem c3_noDetection_locked_keeps_unlocked_decays :
    (∀ (s : RMState) (locked : Quad) (n : ℕ),
        s.isLocked = true → s.lockedRectangle = some locked →
        (fun t => (handleNoDetection t).1)^[n] s = s ∧
        (handleNoDetection s).2 = some locked) ∧
    (∀ s : RMState, s.isLocked = false →
        (handleNoDetection s).1.stableFrameCount = s.stableFrameCount - 1 ∧
        (handleNoDetection s).2 = none) := by
  constructor
  · intro s locked n h1 h2
    have hstep : (handleNoDetection s).1 = s := by
      unfold handleNoDetection
      rw [h1, h2]
    refine ⟨Function.iterate_fixed hstep n, ?_⟩
    unfold handleNoDetection
    rw [h1, h2]
  · intro s h
    unfold handleNoDetection
    rw [h]
    exact ⟨rfl, rfl⟩

/-- Witness for the C3 amended theorem at concrete states. -/
theorem c3_noDetection_locked_keeps_unlocked_decays_witness :
    ((fun t => (handleNoDetection t).1)^[5] Examples.lockedState =
        Examples.lockedState ∧
      (handleNoDetection Examples.lockedState).2 = some Examples.quadA) ∧
    ((handleNoDetection { stableFrameCount := 3 : RMState }).1.stableFrameCount
        = 2 ∧
      (handleNoDetection { stableFrameCount := 3 : RMState }).2 = none) :=
  ⟨c3_noDetection_locked_keeps_unlocked_decays.1
      Examples.lockedState Examples.quadA 5 rfl rfl,
   c3_noDetection_locked_keeps_unlocked_decays.2
      { stableFrameCount := 3 } rfl⟩

/-! ### C10 — lock-state consistency invariant -/

theorem lockInvariant_congr (t u : RMState) (h1 : t.isLocked = u.isLocked)
    (h2 : t.lockedRectangle = u.lockedRectangle) :
    lockInvariant t = lockInvariant u := by
  unfold lockInvariant
  rw [h1, h2]

theorem applyTemporalSmoothing_lock_fields (s : RMState) (C : Quad) :
    (applyTemporalSmoothing s C).1.isLocked = s.isLocked ∧
    (applyTemporalSmoothing s C).1.lockedRectangle = s.lockedRectangle := by
  unfold applyTemporalSmoothing
  cases h : s.smoothedCorners <;> simp [h]

theorem applyMovementGating_lock_fields (s : RMState) (C : Quad) :
    (applyMovementGating s C).1.isLocked = s.isLocked ∧
    (applyMovementGating s C).1.lockedRectangle = s.lockedRectangle := by
  unfold applyMovementGating
  cases h : s.previousGatedCorners
  · simp [h]
  · dsimp only
    split <;> simp [h]

theorem updateStabilityLock_lockInvariant (s : RMState) (C : Quad)
    (h : lockInvariant s = true) :
    lockInvariant (updateStabilityLock s C).1 = true := by
  unfold updateStabilityLock
  cases h1 : s.isLocked
  · cases h2 : s.previousCorners <;>
      · dsimp only
        split <;> (try split) <;> simp_all [lockInvariant]
  · cases h2 : s.lockedRectangle
    · cases h3 : s.previousCorners <;>
        · dsimp only
          split <;> (try split) <;> simp_all [lockInvariant]
    · dsimp only
      split
      · split <;> simp_all [lockInvariant]
      · simp_all [lockInvariant]

theorem handleNoDetection_lockInvariant (s : RMState) :
    lockInvariant (handleNoDetection s).1 = lockInvariant s := by
  unfold handleNoDetection
  cases h1 : s.isLocked <;> cases h2 : s.lockedRectangle <;>
    simp [h1, h2, lockInvariant]

theorem handleInvalidDetection_lockInvariant (s : RMState) :
    lockInvariant (handleInvalidDetection s).1 = lockInvariant s := by
  unfold handleInvalidDetection
  cases h : s.smoothedCorners
  · simp [h, handleNoDetection_lockInvariant]
  · dsimp only
    split
    · simp [lockInvariant]
    · simp [handleNoDetection_lockInvariant]

theorem acceptedFrameStep_lockInvariant (s : RMState) (C : Quad)
    (h : lockInvariant s = true) :
    lockInvariant (acceptedFrameStep s C).1 = true := by
  unfold acceptedFrameStep
  apply updateStabilityLock_lockInvariant
  rw [lockInvariant_congr _ (applyTemporalSmoothing s C).1
      (applyMovementGating_lock_fields _ _).1
      (applyMovementGating_lock_fields _ _).2]
  rw [lockInvariant_congr _ s
      (applyTemporalSmoothing_lock_fields _ _).1
      (applyTemporalSmoothing_lock_fields _ _).2]
  exact h

theorem process_lockInvariant (s : RMState) (raw : Option Quad)
    (fw fh : ℝ) (m : Mode) (h : lockInvariant s = true) :
    lockInvariant (process s raw fw fh m).1 = true := by
  unfold process
  cases raw with
  | none =>
      rw [handleNoDetection_lockInvariant]
      exact h
  | some rawq =>
      dsimp only
      cases ensureOrdered rawq with
      | none =>
          rw [handleInvalidDetection_lockInvariant]
          exact h
      | some corners =>
          dsimp only
          cases validateAndCorrect corners fw fh m with
          | rejected r =>
              rw [handleInvalidDetection_lockInvariant]
              exact h
          | ok corners2 =>
              exact acceptedFrameStep_lockInvariant _ _ h

theorem getLockedCorners_isSome (s : RMState) (h : lockInvariant s = true) :
    (getLockedCorners s).isSome = s.isLocked := by
  unfold getLockedCorners
  cases h1 : s.isLocked <;> cases h2 : s.lockedRectangle <;>
    simp_all [lockInvariant]

theorem runOps_lockInvariant_aux :
    ∀ (ops : List Op) (s : RMState), lockInvariant s = true →
      lockInvariant (ops.foldl applyOp s) = true := by
  intro ops
  induction ops with
  | nil => intro s h; exact h
  | cons op rest ih =>
      intro s h
      rw [List.foldl_cons]
      apply ih
      cases op with
      | proc raw fw fh m => exact process_lockInvariant s raw fw fh m h
      | reset => rfl
      | unlock => rfl

/-- C10: lock-state consistency invariant.  After any sequence of the
public operations `process`, `reset` and `unlock` starting from the
initial state, a locked state always carries a locked rectangle
(`isLocked` implies `lockedRectangle` is non-null), and `getLockedCorners`
returns a quad exactly when the state is locked — never in an unlocked
state. -/
theorem c10_lock_state_invariant :
    ∀ ops : List Op,
      lockInvariant (runOps ops) = true ∧
      (getLockedCorners (runOps ops)).isSome = (runOps ops).isLocked := by
  intro ops
  have h : lockInvariant (runOps ops) = true :=
    runOps_lockInvariant_aux ops reset rfl
  exact ⟨h, getLockedCorners_isSome _ h⟩

/-! ### C2 — the locked quad is frozen, not lerped, in the report -/

theorem smoothQuad_quadA_shift (b α : ℝ) :
    smoothQuad Examples.quadA (Examples.shiftX Examples.quadA b) α =
      Examples.shiftX Examples.quadA ((1 - α) * b) := by
  have h := smoothQuad_shiftX Examples.quadA 0 b α
  rw [shiftX_zero Examples.quadA] at h
  rw [h]
  congr 1
  ring

/-- C2: counterexample.  A concrete locked state receives two accepted
quads whose movement does not trigger unlock; the quad reported on both
frames is exactly the frozen locked snapshot `quadA` (unchanged from frame
to frame), even though the internal smoothed quad has moved away from it.
The reported quad therefore does not lerp toward the incoming smoothed
quad. -/
theorem c2_locked_report_frozen_cex :
    Examples.c2Frame1.2 = Examples.quadA ∧
    Examples.c2Frame2.2 = Examples.quadA ∧
    Examples.c2Frame1.1.isLocked = true ∧
    Examples.c2Frame1.1.lockedRectangle = some Examples.quadA ∧
    Examples.c2Frame2.1.isLocked = true ∧
    Examples.c2Frame2.1.lockedRectangle = some Examples.quadA ∧
    Examples.c2Frame1.1.smoothedCorners
      = some (Examples.shiftX Examples.quadA 10) ∧
    Examples.shiftX Examples.quadA 10 ≠ Examples.quadA := by
  have hm10 : averageCornerMovement Examples.quadA
      (Examples.shiftX Examples.quadA 10) = 10 :=
    averageCornerMovement_shiftX _ _ (by norm_num)
  have hs1 : smoothQuad Examples.quadA (Examples.shiftX Examples.quadA 40)
      SMOOTHING_ALPHA_LOCKED = Examples.shiftX Examples.quadA 10 := by
    rw [smoothQuad_quadA_shift 40 _]
    norm_num [SMOOTHING_ALPHA_LOCKED]
  have hc1 : Examples.c2Frame1 =
      ({ Examples.lockedState with
          smoothedCorners := some (Examples.shiftX Examples.quadA 10),
          previousGatedCorners := some (Examples.shiftX Examples.quadA 10),
          unlockFrameCount := 0 }, Examples.quadA) := by
    show acceptedFrameStep Examples.lockedState
        (Examples.shiftX Examples.quadA 40) = _
    unfold acceptedFrameStep
    rw [applyTemporalSmoothing_some_locked Examples.lockedState
        Examples.quadA _ rfl rfl, hs1]
    dsimp only
    rw [applyMovementGating_big _ Examples.quadA _ rfl
        (by rw [hm10]; norm_num [JITTER_THRESHOLD])]
    dsimp only
    rw [updateStabilityLock_locked_still _ Examples.quadA _ rfl rfl
        (by rw [hm10]; norm_num [UNLOCK_MOVEMENT])]
  have hs2 : smoothQuad (Examples.shiftX Examples.quadA 10)
      (Examples.shiftX Examples.quadA 12) SMOOTHING_ALPHA_LOCKED =
      Examples.shiftX Examples.quadA 10.5 := by
    rw [smoothQuad_shiftX]
    norm_num [SMOOTHING_ALPHA_LOCKED]
  have hmsmall : averageCornerMovement (Examples.shiftX Examples.quadA 10)
      (Examples.shiftX Examples.quadA 10.5) = 0.5 := by
    rw [averageCornerMovement_shiftX_shiftX]
    norm_num
  have hc2 : Examples.c2Frame2 =
      ({ Examples.lockedState with
          smoothedCorners := some (Examples.shiftX Examples.quadA 10.5),
          previousGatedCorners := some (Examples.shiftX Examples.quadA 10),
          unlockFrameCount := 0 }, Examples.quadA) := by
    show acceptedFrameStep Examples.c2Frame1.1
        (Examples.shiftX Examples.quadA 12) = _
    rw [hc1]
    unfold acceptedFrameStep
    rw [applyTemporalSmoothing_some_locked _
        (Examples.shiftX Examples.quadA 10) _ rfl rfl, hs2]
    dsimp only
    rw [applyMovementGating_small _ (Examples.shiftX Examples.quadA 10) _ rfl
        (by rw [hmsmall]; norm_num [JITTER_THRESHOLD])]
    dsimp only
    rw [updateStabilityLock_locked_still _ Examples.quadA _ rfl rfl
        (by rw [hm10]; norm_num [UNLOCK_MOVEMENT])]
  refine ⟨by rw [hc1], by rw [hc2], by rw [hc1]; rfl, by rw [hc1]; rfl,
          by rw [hc2]; rfl, by rw [hc2]; rfl, by rw [hc1], ?_⟩
  simp only [Examples.shiftX, Examples.quadA, ne_eq, Quad.mk.injEq,
    Point.mk.injEq]
  norm_num

/-- C2 (amended): while locked, an accepted quad continues to update the
internal smoothed corners by lerp with the locked-state alpha, but when
its movement does not trigger unlock the quad reported for the frame is
the frozen locked snapshot, and the locked rectangle is left unchanged, so
the report does not track the incoming smoothed quad while locked. -/
theorem c2_locked_smoothing_internal_report_frozen :
    ∀ (s : RMState) (locked prev C : Quad),
      s.isLocked = true → s.lockedRectangle = some locked →
      s.smoothedCorners = some prev →
      applyTemporalSmoothing s C =
        ({ s with smoothedCorners := some (smoothQuad prev C SMOOTHING_ALPHA_LOCKED) },
         smoothQuad prev C SMOOTHING_ALPHA_LOCKED) ∧
      (¬ averageCornerMovement locked C > UNLOCK_MOVEMENT →
        updateStabilityLock s C =
          ({ s with unlockFrameCount := 0 }, locked)) := by
  intro s locked prev C h1 h2 h3
  constructor
  · exact applyTemporalSmoothing_some_locked s prev C h3 h1
  · intro hm
    exact updateStabilityLock_locked_still s locked C h1 h2 hm

/-- Witness for the C2 amended theorem at a concrete locked state. -/
theorem c2_locked_smoothing_internal_report_frozen_witness :
    applyTemporalSmoothing Examples.lockedState
        (Examples.shiftX Examples.quadA 10) =
      ({ Examples.lockedState with smoothedCorners := some (smoothQuad
          Examples.quadA (Examples.shiftX Examples.quadA 10)
          SMOOTHING_ALPHA_LOCKED) },
       smoothQuad Examples.quadA (Examples.shiftX Examples.quadA 10)
         SMOOTHING_ALPHA_LOCKED) ∧
    updateStabilityLock Examples.lockedState
        (Examples.shiftX Examples.quadA 10) =
      ({ Examples.lockedState with unlockFrameCount := 0 },
       Examples.quadA) := by
  have h := c2_locked_smoothing_internal_report_frozen Examples.lockedState
    Examples.quadA Examples.quadA (Examples.shiftX Examples.quadA 10)
    rfl rfl rfl
  refine ⟨h.1, h.2 ?_⟩
  rw [averageCornerMovement_shiftX _ _ (by norm_num)]
  norm_num [UNLOCK_MOVEMENT]

/-! ### C1 — no diagonal-ratio rule in the validator -/

theorem sqrt_eval (a v : ℝ) (hv : 0 ≤ v) (h : a = v ^ 2) :
    Real.sqrt a = v := by
  rw [h]
  exact Real.sqrt_sq hv

/-- An interior angle whose cosine has magnitude at most 1/2 lies strictly
between 6° and 174°, so it never trips the extreme-angle rejection. -/
theorem angle_deg_in_range (u : ℝ) (hu : |u| ≤ 1 / 2) :
    ¬ (Real.arccos u * (180 / Real.pi) < 6 ∨
       Real.arccos u * (180 / Real.pi) > 174) := by
  have hπ := Real.pi_pos
  have habs := abs_le.mp hu
  have hcos : 1 / 2 < Real.cos (Real.pi / 30) := by
    have h := Real.cos_lt_cos_of_nonneg_of_le_pi
      (by positivity : (0:ℝ) ≤ Real.pi / 30)
      (by linarith : Real.pi / 3 ≤ Real.pi)
      (by linarith : Real.pi / 30 < Real.pi / 3)
    rw [Real.cos_pi_div_three] at h
    exact h
  have h1 : Real.pi / 30 < Real.arccos u := by
    by_contra hcon
    push_neg at hcon
    have hmono := Real.cos_le_cos_of_nonneg_of_le_pi
      (Real.arccos_nonneg u) (by linarith : Real.pi / 30 ≤ Real.pi) hcon
    rw [Real.cos_arccos (by linarith) (by linarith)] at hmono
    linarith
  have h2 : Real.arccos u < Real.pi - Real.pi / 30 := by
    by_contra hcon
    push_neg at hcon
    have hmono := Real.cos_le_cos_of_nonneg_of_le_pi
      (by linarith : (0:ℝ) ≤ Real.pi - Real.pi / 30)
      (Real.arccos_le_pi u) hcon
    rw [Real.cos_arccos (by linarith) (by linarith), Real.cos_pi_sub] at hmono
    linarith
  have he1 : Real.pi / 30 * (180 / Real.pi) = 6 := by
    field_simp
    ring
  have he2 : (Real.pi - Real.pi / 30) * (180 / Real.pi) = 174 := by
    field_simp
    ring
  push_neg
  constructor
  · have := mul_lt_mul_of_pos_right h1
      (by positivity : (0:ℝ) < 180 / Real.pi)
    rw [he1] at this
    linarith
  · have := mul_lt_mul_of_pos_right h2
      (by positivity : (0:ℝ) < 180 / Real.pi)
    rw [he2] at this
    linarith

/-- Quotient bound used for the cosine magnitudes of the skewed quad. -/
theorem u_bound_of_denom (d den : ℝ) (hd : |d| ≤ 20000)
    (hden : 40000 ≤ den) : |d / den| ≤ 1 / 2 := by
  have hden0 : (0:ℝ) < den := by linarith
  rw [abs_div, abs_of_nonneg (le_of_lt hden0), div_le_iff hden0]
  calc |d| ≤ 20000 := hd
    _ ≤ 1 / 2 * den := by linarith

theorem skew_sqrt40 : Real.sqrt 40000 = 200 :=
  sqrt_eval _ _ (by norm_num) (by norm_num)

theorem skew_sqrt50_lb : (200:ℝ) ≤ Real.sqrt 50000 := by
  rw [← skew_sqrt40]
  exact Real.sqrt_le_sqrt (by norm_num)

theorem skew_sqrt50_ub : Real.sqrt 50000 ≤ 224 := by
  have h : Real.sqrt 50176 = 224 := sqrt_eval _ _ (by norm_num) (by norm_num)
  rw [← h]
  exact Real.sqrt_le_sqrt (by norm_num)

theorem skew_isConvex : isConvex Examples.skewQuad = true := by
  unfold isConvex crossAt Examples.skewQuad
  norm_num [sameSignFold]

theorem skew_dist_top : distance Examples.skewQuad.tl Examples.skewQuad.tr
    = Real.sqrt 40000 := by
  unfold distance Examples.skewQuad
  norm_num

theorem skew_dist_bottom : distance Examples.skewQuad.bl Examples.skewQuad.br
    = Real.sqrt 40000 := by
  unfold distance Examples.skewQuad
  norm_num

theorem skew_dist_left : distance Examples.skewQuad.tl Examples.skewQuad.bl
    = Real.sqrt 50000 := by
  unfold distance Examples.skewQuad
  norm_num

theorem skew_dist_right : distance Examples.skewQuad.tr Examples.skewQuad.br
    = Real.sqrt 50000 := by
  unfold distance Examples.skewQuad
  norm_num

theorem skew_parallel_valid :
    (checkParallelEdgeRatioWithDetails Examples.skewQuad Mode.preview).valid
      = true := by
  unfold checkParallelEdgeRatioWithDetails
  dsimp only
  rw [skew_dist_top, skew_dist_bottom, skew_dist_left, skew_dist_right,
      max_self, min_self, max_self, min_self,
      div_self (by positivity : Real.sqrt 40000 ≠ 0),
      div_self (by positivity : Real.sqrt 50000 ≠ 0)]
  exact decide_eq_true (by norm_num [getMaxParallelRatio])

theorem skew_area : quadArea Examples.skewQuad = 40000 := by
  unfold quadArea Examples.skewQuad
  dsimp only
  rw [show (100 * (100:ℝ) - 300 * 100 + 300 * 300 - 400 * 100 +
      400 * 300 - 200 * 300 + 200 * 100 - 100 * 300) = 80000 by norm_num]
  rw [abs_of_nonneg (by norm_num : (0:ℝ) ≤ 80000)]
  norm_num

theorem skew_sides : getSideLengths Examples.skewQuad =
    (Real.sqrt 40000, Real.sqrt 50000, Real.sqrt 40000, Real.sqrt 50000) := by
  unfold getSideLengths distance Examples.skewQuad
  norm_num

theorem skew_hasValid : hasValidCorners Examples.skewQuad = true := rfl

theorem skew_angle0 :
    angleAt Examples.skewQuad.bl Examples.skewQuad.tl Examples.skewQuad.tr =
      Real.arccos (20000 / (Real.sqrt 50000 * Real.sqrt 40000)) *
        (180 / Real.pi) := by
  unfold angleAt Examples.skewQuad
  norm_num

theorem skew_angle1 :
    angleAt Examples.skewQuad.tl Examples.skewQuad.tr Examples.skewQuad.br =
      Real.arccos (-20000 / (Real.sqrt 40000 * Real.sqrt 50000)) *
        (180 / Real.pi) := by
  unfold angleAt Examples.skewQuad
  norm_num

theorem skew_angle2 :
    angleAt Examples.skewQuad.tr Examples.skewQuad.br Examples.skewQuad.bl =
      Real.arccos (20000 / (Real.sqrt 50000 * Real.sqrt 40000)) *
        (180 / Real.pi) := by
  unfold angleAt Examples.skewQuad
  norm_num

theorem skew_angle3 :
    angleAt Examples.skewQuad.br Examples.skewQuad.bl Examples.skewQuad.tl =
      Real.arccos (-20000 / (Real.sqrt 40000 * Real.sqrt 50000)) *
        (180 / Real.pi) := by
  unfold angleAt Examples.skewQuad
  norm_num

theorem skew_u_pos_bound :
    |(20000:ℝ) / (Real.sqrt 50000 * Real.sqrt 40000)| ≤ 1 / 2 :=
  u_bound_of_denom _ _
    (by rw [abs_of_nonneg (by norm_num : (0:ℝ) ≤ 20000)])
    (by rw [skew_sqrt40]; nlinarith [skew_sqrt50_lb])

theorem skew_u_neg_bound :
    |(-20000:ℝ) / (Real.sqrt 40000 * Real.sqrt 50000)| ≤ 1 / 2 :=
  u_bound_of_denom _ _
    (by rw [abs_neg, abs_of_nonneg (by norm_num : (0:ℝ) ≤ 20000)])
    (by rw [skew_sqrt40]; nlinarith [skew_sqrt50_lb])

theorem skew_angles_not_extreme :
    (calculateInternalAngles Examples.skewQuad).any
      (fun a => decide (a < 6 ∨ a > 174)) = false := by
  unfold calculateInternalAngles
  rw [skew_angle0, skew_angle1, skew_angle2, skew_angle3]
  simp only [List.any_cons, List.any_nil, Bool.or_false]
  rw [decide_eq_false (angle_deg_in_range _ skew_u_pos_bound),
      decide_eq_false (angle_deg_in_range _ skew_u_neg_bound)]
  rfl

/-- C1: counterexample.  The skewed parallelogram passes the validator
unchanged (it is convex, with balanced opposite edges, ample area,
balanced side lengths, all corners in frame and moderate interior angles),
yet its diagonal ratio exceeds 1.15 — the validator applies no
diagonal-consistency rule, so such a quad is accepted rather than
rejected. -/
theorem c1_diagonal_ratio_not_checked_cex :
    validateAndCorrect Examples.skewQuad 640 480 Mode.preview =
      .ok Examples.skewQuad ∧
    max (distance Examples.skewQuad.tl Examples.skewQuad.br)
        (distance Examples.skewQuad.tr Examples.skewQuad.bl) /
      min (distance Examples.skewQuad.tl Examples.skewQuad.br)
          (distance Examples.skewQuad.tr Examples.skewQuad.bl) > 1.15 := by
  constructor
  · have h45 : Real.sqrt 40000 ≤ Real.sqrt 50000 := by
      rw [skew_sqrt40]; exact skew_sqrt50_lb
    have harea : ¬ (quadArea Examples.skewQuad / ((640:ℝ) * 480) < 0.01) := by
      rw [skew_area]; norm_num
    have hside : ¬ (min (min (min (getSideLengths Examples.skewQuad).1
          (getSideLengths Examples.skewQuad).2.1)
          (getSideLengths Examples.skewQuad).2.2.1)
          (getSideLengths Examples.skewQuad).2.2.2 /
        max (max (max (getSideLengths Examples.skewQuad).1
          (getSideLengths Examples.skewQuad).2.1)
          (getSideLengths Examples.skewQuad).2.2.1)
          (getSideLengths Examples.skewQuad).2.2.2 < 0.15) := by
      rw [skew_sides]
      dsimp only
      rw [min_eq_left h45, min_self, min_eq_left h45,
          max_eq_right h45, max_eq_left h45, max_self]
      intro h
      rw [skew_sqrt40,
          div_lt_iff (by positivity : (0:ℝ) < Real.sqrt 50000)] at h
      nlinarith [skew_sqrt50_ub]
    have hframe : ¬ ((Examples.skewQuad.tl.x < -(min (640:ℝ) 480 * 0.05) ∨
          Examples.skewQuad.tl.x > 640 + min (640:ℝ) 480 * 0.05 ∨
          Examples.skewQuad.tl.y < -(min (640:ℝ) 480 * 0.05) ∨
          Examples.skewQuad.tl.y > 480 + min (640:ℝ) 480 * 0.05) ∨
        (Examples.skewQuad.tr.x < -(min (640:ℝ) 480 * 0.05) ∨
          Examples.skewQuad.tr.x > 640 + min (640:ℝ) 480 * 0.05 ∨
          Examples.skewQuad.tr.y < -(min (640:ℝ) 480 * 0.05) ∨
          Examples.skewQuad.tr.y > 480 + min (640:ℝ) 480 * 0.05) ∨
        (Examples.skewQuad.br.x < -(min (640:ℝ) 480 * 0.05) ∨
          Examples.skewQuad.br.x > 640 + min (640:ℝ) 480 * 0.05 ∨
          Examples.skewQuad.br.y < -(min (640:ℝ) 480 * 0.05) ∨
          Examples.skewQuad.br.y > 480 + min (640:ℝ) 480 * 0.05) ∨
        (Examples.skewQuad.bl.x < -(min (640:ℝ) 480 * 0.05) ∨
          Examples.skewQuad.bl.x > 640 + min (640:ℝ) 480 * 0.05 ∨
          Examples.skewQuad.bl.y < -(min (640:ℝ) 480 * 0.05) ∨
          Examples.skewQuad.bl.y > 480 + min (640:ℝ) 480 * 0.05)) := by
      norm_num [Examples.skewQuad, min_def]
    have hang : ¬ ((calculateInternalAngles Examples.skewQuad).any
        (fun a => decide (a < 6 ∨ a > 174)) = true) := by
      rw [skew_angles_not_extreme]
      exact Bool.false_ne_true
    unfold validateAndCorrect
    dsimp only
    rw [if_neg (not_not_intro skew_hasValid),
        if_neg (not_not_intro skew_isConvex),
        if_neg (not_not_intro skew_parallel_valid),
        if_neg harea, if_neg hside, if_neg hframe, if_neg hang]
  · have hd1 : distance Examples.skewQuad.tl Examples.skewQuad.br
        = Real.sqrt 130000 := by
      unfold distance Examples.skewQuad
      norm_num
    have hd2 : distance Examples.skewQuad.tr Examples.skewQuad.bl
        = Real.sqrt 50000 := by
      unfold distance Examples.skewQuad
      norm_num
    have h130lb : (360:ℝ) ≤ Real.sqrt 130000 := by
      have h : Real.sqrt 129600 = 360 :=
        sqrt_eval _ _ (by norm_num) (by norm_num)
      rw [← h]
      exact Real.sqrt_le_sqrt (by norm_num)
    have hle : Real.sqrt 50000 ≤ Real.sqrt 130000 :=
      Real.sqrt_le_sqrt (by norm_num)
    rw [hd1, hd2, max_eq_left hle, min_eq_right hle,
        gt_iff_lt, lt_div_iff (by positivity : (0:ℝ) < Real.sqrt 50000)]
    nlinarith [skew_sqrt50_ub, h130lb]

theorem thin_isConvex : isConvex Examples.thinQuad = true := by
  unfold isConvex crossAt Examples.thinQuad
  norm_num [sameSignFold]

theorem thin_dist_top : distance Examples.thinQuad.tl Examples.thinQuad.tr
    = Real.sqrt 160000 := by
  unfold distance Examples.thinQuad
  norm_num

theorem thin_dist_bottom : distance Examples.thinQuad.bl Examples.thinQuad.br
    = Real.sqrt 160000 := by
  unfold distance Examples.thinQuad
  norm_num

theorem thin_dist_left : distance Examples.thinQuad.tl Examples.thinQuad.bl
    = Real.sqrt 1600 := by
  unfold distance Examples.thinQuad
  norm_num

theorem thin_dist_right : distance Examples.thinQuad.tr Examples.thinQuad.br
    = Real.sqrt 1600 := by
  unfold distance Examples.thinQuad
  norm_num

theorem thin_parallel_valid :
    (checkParallelEdgeRatioWithDetails Examples.thinQuad Mode.preview).valid
      = true := by
  unfold checkParallelEdgeRatioWithDetails
  dsimp only
  rw [thin_dist_top, thin_dist_bottom, thin_dist_left, thin_dist_right,
      max_self, min_self, max_self, min_self,
      div_self (by positivity : Real.sqrt 160000 ≠ 0),
      div_self (by positivity : Real.sqrt 1600 ≠ 0)]
  exact decide_eq_true (by norm_num [getMaxParallelRatio])

theorem thin_area : quadArea Examples.thinQuad = 16000 := by
  unfold quadArea Examples.thinQuad
  dsimp only
  rw [show (100 * (100:ℝ) - 500 * 100 + 500 * 140 - 500 * 100 +
      500 * 140 - 100 * 140 + 100 * 100 - 100 * 140) = 32000 by norm_num]
  rw [abs_of_nonneg (by norm_num : (0:ℝ) ≤ 32000)]
  norm_num

theorem thin_sides : getSideLengths Examples.thinQuad =
    (Real.sqrt 160000, Real.sqrt 1600, Real.sqrt 160000, Real.sqrt 1600) := by
  unfold getSideLengths distance Examples.thinQuad
  norm_num

/-- C1 (amended): the validator applies no diagonal-ratio test at all; the
side-length discrimination it does apply is the triangle-likeness check: any
structurally valid, convex quad whose parallel-edge ratio is acceptable and
whose area is at least 1% of the frame is rejected with reason
`triangle_shape` whenever its shortest side is below 15% of its longest
side. -/
theorem c1_short_side_rejected (c : Quad) (fw fh : ℝ) (m : Mode)
    (hv : hasValidCorners c = true) (hc : isConvex c = true)
    (hp : (checkParallelEdgeRatioWithDetails c m).valid = true)
    (ha : ¬ (quadArea c / (fw * fh) < 0.01))
    (hs : min (min (min (getSideLengths c).1 (getSideLengths c).2.1)
        (getSideLengths c).2.2.1) (getSideLengths c).2.2.2 /
      max (max (max (getSideLengths c).1 (getSideLengths c).2.1)
        (getSideLengths c).2.2.1) (getSideLengths c).2.2.2 < 0.15) :
    validateAndCorrect c fw fh m = .rejected .triangle_shape := by
  unfold validateAndCorrect
  dsimp only
  rw [if_neg (not_not_intro hv), if_neg (not_not_intro hc),
      if_neg (not_not_intro hp), if_neg ha, if_pos hs]

/-- C1 (amended) witness: the 400 × 40 rectangle `thinQuad` (side ratio
0.1) is rejected as `triangle_shape` in a 640 × 480 preview frame. -/
theorem c1_short_side_rejected_witness :
    validateAndCorrect Examples.thinQuad 640 480 Mode.preview =
      .rejected .triangle_shape :=
  c1_short_side_rejected Examples.thinQuad 640 480 Mode.preview rfl
    thin_isConvex thin_parallel_valid
    (by rw [thin_area]; norm_num)
    (by rw [thin_sides]
        dsimp only
        rw [sqrt_eval 160000 400 (by norm_num) (by norm_num),
            sqrt_eval 1600 40 (by norm_num) (by norm_num)]
        norm_num [min_def, max_def])

/-! ### C5 — rectification sizing -/

theorem exCos_quadratic :
    20800 * Examples.exCos ^ 2 - 14560 * Examples.exCos - 6119 = 0 := by
  have hroot : Examples.exRoot ^ 2 = 721094400 :=
    Real.sq_sqrt (by norm_num)
  unfold Examples.exCos
  linear_combination (1 / 83200) * hroot

theorem exCos_exSin_unit :
    Examples.exCos ^ 2 + Examples.exSin ^ 2 = 1 := by
  unfold Examples.exSin
  linear_combination (1 / 14400) * exCos_quadratic

theorem jround_eval (x : ℝ) (n : ℤ) (h1 : (n : ℝ) ≤ x + 1 / 2)
    (h2 : x + 1 / 2 < n + 1) : ImageProcessor.jround x = n := by
  unfold ImageProcessor.jround
  exact Int.floor_eq_iff.mpr ⟨h1, h2⟩

theorem rectExampleQuad_edges :
    ImageProcessor.distance Examples.rectExampleQuad.tl
      Examples.rectExampleQuad.tr = 100 ∧
    ImageProcessor.distance Examples.rectExampleQuad.bl
      Examples.rectExampleQuad.br = 120 ∧
    ImageProcessor.distance Examples.rectExampleQuad.tl
      Examples.rectExampleQuad.bl = 150 ∧
    ImageProcessor.distance Examples.rectExampleQuad.tr
      Examples.rectExampleQuad.br = 140 := by
  have hunit := exCos_exSin_unit
  refine ⟨?_, ?_, ?_, ?_⟩
  · simp only [ImageProcessor.distance, Examples.rectExampleQuad]
    rw [show ((100:ℝ) - 0) ^ 2 + ((0:ℝ) - 0) ^ 2 = 100 ^ 2 by norm_num]
    exact Real.sqrt_sq (by norm_num)
  · simp only [ImageProcessor.distance, Examples.rectExampleQuad]
    rw [show (120 * Examples.exCos - 0) ^ 2 +
        (150 + 120 * Examples.exSin - 150) ^ 2 = (120:ℝ) ^ 2 by
      linear_combination 14400 * hunit]
    exact Real.sqrt_sq (by norm_num)
  · simp only [ImageProcessor.distance, Examples.rectExampleQuad]
    rw [show ((0:ℝ) - 0) ^ 2 + ((150:ℝ) - 0) ^ 2 = 150 ^ 2 by norm_num]
    exact Real.sqrt_sq (by norm_num)
  · simp only [ImageProcessor.distance, Examples.rectExampleQuad]
    rw [show (120 * Examples.exCos - 100) ^ 2 +
        (150 + 120 * Examples.exSin - 0) ^ 2 = (140:ℝ) ^ 2 by
      unfold Examples.exSin
      linear_combination exCos_quadratic]
    exact Real.sqrt_sq (by norm_num)

theorem distance_scale (k : ℝ) (hk : 0 ≤ k) (p q : Point) :
    ImageProcessor.distance ⟨k * p.x, k * p.y⟩ ⟨k * q.x, k * q.y⟩ =
      k * ImageProcessor.distance p q := by
  unfold ImageProcessor.distance
  rw [show (k * q.x - k * p.x) ^ 2 + (k * q.y - k * p.y) ^ 2 =
      k ^ 2 * ((q.x - p.x) ^ 2 + (q.y - p.y) ^ 2) by ring]
  rw [Real.sqrt_mul (sq_nonneg k), Real.sqrt_sq hk]

theorem rectExampleQuadBig_edges :
    ImageProcessor.distance Examples.rectExampleQuadBig.tl
      Examples.rectExampleQuadBig.tr = 4000 ∧
    ImageProcessor.distance Examples.rectExampleQuadBig.bl
      Examples.rectExampleQuadBig.br = 4800 ∧
    ImageProcessor.distance Examples.rectExampleQuadBig.tl
      Examples.rectExampleQuadBig.bl = 6000 ∧
    ImageProcessor.distance Examples.rectExampleQuadBig.tr
      Examples.rectExampleQuadBig.br = 5600 := by
  obtain ⟨h1, h2, h3, h4⟩ := rectExampleQuad_edges
  refine ⟨?_, ?_, ?_, ?_⟩
  · show ImageProcessor.distance ⟨40 * _, 40 * _⟩ ⟨40 * _, 40 * _⟩ = _
    rw [distance_scale 40 (by norm_num), h1]
    norm_num
  · show ImageProcessor.distance ⟨40 * _, 40 * _⟩ ⟨40 * _, 40 * _⟩ = _
    rw [distance_scale 40 (by norm_num), h2]
    norm_num
  · show ImageProcessor.distance ⟨40 * _, 40 * _⟩ ⟨40 * _, 40 * _⟩ = _
    rw [distance_scale 40 (by norm_num), h3]
    norm_num
  · show ImageProcessor.distance ⟨40 * _, 40 * _⟩ ⟨40 * _, 40 * _⟩ = _
    rw [distance_scale 40 (by norm_num), h4]
    norm_num

/-- C5: rectification sizing.  The output dimensions computed by
`perspectiveCorrect` agree with the spec's sizing rule (rounded maxima of
opposite-edge lengths, then uniform downscale by
`maxDim / max(width, height)` when either exceeds the maximum); a quad
with top edge 100 px, bottom 120 px, left 150 px and right 140 px yields a
120 × 150 output; and the same quad scaled ×40 (edges 4000/4800/6000/5600,
exceeding the 4096 maximum) is uniformly downscaled by 4096/6000 to
3277 × 4096, preserving aspect ratio up to rounding. -/
theorem c5_rectification_sizing :
    (∀ (c : Quad) (maxDim : ℤ),
        ImageProcessor.perspectiveOutputDims c maxDim =
          ImageProcessor.specRectifySizing c maxDim) ∧
    ImageProcessor.perspectiveOutputDims Examples.rectExampleQuad
        ImageProcessor.MAX_DIMENSION = (120, 150) ∧
    ImageProcessor.perspectiveOutputDims Examples.rectExampleQuadBig
        ImageProcessor.MAX_DIMENSION = (3277, 4096) := by
  obtain ⟨h1, h2, h3, h4⟩ := rectExampleQuad_edges
  obtain ⟨g1, g2, g3, g4⟩ := rectExampleQuadBig_edges
  refine ⟨fun c maxDim => rfl, ?_, ?_⟩
  · unfold ImageProcessor.perspectiveOutputDims
    dsimp only
    rw [h1, h2, h3, h4,
        max_eq_right (by norm_num : (100:ℝ) ≤ 120),
        max_eq_left (by norm_num : (140:ℝ) ≤ 150),
        jround_eval 120 120 (by norm_num) (by norm_num),
        jround_eval 150 150 (by norm_num) (by norm_num)]
    rw [if_neg (by norm_num [ImageProcessor.MAX_DIMENSION])]
  · unfold ImageProcessor.perspectiveOutputDims
    dsimp only
    rw [g1, g2, g3, g4,
        max_eq_right (by norm_num : (4000:ℝ) ≤ 4800),
        max_eq_left (by norm_num : (5600:ℝ) ≤ 6000),
        jround_eval 4800 4800 (by norm_num) (by norm_num),
        jround_eval 6000 6000 (by norm_num) (by norm_num)]
    rw [if_pos (by norm_num [ImageProcessor.MAX_DIMENSION] :
        (4800:ℤ) > ImageProcessor.MAX_DIMENSION ∨
        (6000:ℤ) > ImageProcessor.MAX_DIMENSION)]
    rw [max_eq_right (by norm_num : (4800:ℤ) ≤ 6000)]
    have e1 : ((4800:ℤ) : ℝ) * ((ImageProcessor.MAX_DIMENSION : ℝ) /
        ((6000:ℤ) : ℝ)) = 3276.8 := by
      norm_num [ImageProcessor.MAX_DIMENSION]
    have e2 : ((6000:ℤ) : ℝ) * ((ImageProcessor.MAX_DIMENSION : ℝ) /
        ((6000:ℤ) : ℝ)) = 4096 := by
      norm_num [ImageProcessor.MAX_DIMENSION]
    rw [e1, e2, jround_eval (3276.8) 3277 (by norm_num) (by norm_num),
        jround_eval 4096 4096 (by norm_num) (by norm_num)]

/-! ### C6 — rectifier failure mode -/

/-- C6: counterexample.  When the OpenCV transform computation throws on a
degenerate quad, `perspectiveCorrect` itself propagates the exception to
its caller instead of returning the original source image: its `try`
block carries only a `finally` (Mat cleanup), no `catch`. -/
theorem c6_perspectiveCorrect_raises_cex :
    ImageProcessor.perspectiveCorrect true ⟨640, 480, 0⟩
        Examples.degenerateQuad (fun _ => .error .singularTransform) =
      .error .singularTransform ∧
    (Except.error CvError.singularTransform : Except CvError Canvas) ≠
      .ok ⟨640, 480, 0⟩ := by
  refine ⟨rfl, ?_⟩
  intro h
  exact Except.noConfusion h

/-- C6 (amended): the failure containment lives one level up.  Whenever
the OpenCV transform fails, `perspectiveCorrect` returns that error to its
caller, and the calling `captureWithCorners` catches it and produces the
original, uncorrected frame; the capture flow is a total function into
canvases and never propagates the exception further. -/
theorem c6_capture_degrades_to_original_frame :
    ∀ (frame : Canvas) (corners : Quad) (e : CvError)
      (warp : ℤ × ℤ → Except CvError Canvas),
      warp (ImageProcessor.perspectiveOutputDims corners
        ImageProcessor.MAX_DIMENSION) = .error e →
      ImageProcessor.perspectiveCorrect true frame corners warp = .error e ∧
      App.captureWithCorners true frame corners warp = frame := by
  intro frame corners e warp h
  have h1 : ImageProcessor.perspectiveCorrect true frame corners warp =
      .error e := by
    simpa [ImageProcessor.perspectiveCorrect] using h
  refine ⟨h1, ?_⟩
  simp [App.captureWithCorners, h1, Except.map]

/-- Witness for the C6 amended theorem at a degenerate quad. -/
theorem c6_capture_degrades_to_original_frame_witness :
    ImageProcessor.perspectiveCorrect true ⟨1920, 1080, 7⟩
        Examples.degenerateQuad (fun _ => .error .singularTransform) =
      .error .singularTransform ∧
    App.captureWithCorners true ⟨1920, 1080, 7⟩ Examples.degenerateQuad
        (fun _ => .error .singularTransform) = ⟨1920, 1080, 7⟩ :=
  c6_capture_degrades_to_original_frame ⟨1920, 1080, 7⟩
    Examples.degenerateQuad CvError.singularTransform
    (fun _ => .error .singularTransform) rfl

/-! ### C9 — arbitration rescue tier -/

/-- C9: counterexample.  In the edge-density arbitrator (the newer
controller), with no opencv candidate, a heatmap candidate at rescue-level
confidence (0.3 ≥ `CONFIDENCE_RESCUE`) whose edge check fails is not
returned: the arbitrator yields nothing — it has no last-resort rescue
tier. -/
theorem c9_no_rescue_in_edge_arbitrator_cex :
    App.arbitrateDetectionEdge none (some ⟨Examples.quadA, 0.3⟩)
        (fun _ => 0) = none ∧
    (0.3 : ℝ) ≥ App.CONFIDENCE_RESCUE := by
  constructor
  · unfold App.arbitrateDetectionEdge App.heatmapTrustedB
    norm_num [App.CONFIDENCE_TRUSTED, App.MIN_EDGE_DENSITY]
  · norm_num [App.CONFIDENCE_RESCUE]

/-- C9 (amended): only the legacy arbitrator (`app.js` / `pdf.js`) has a
rescue tier: with no opencv candidate it returns the heatmap candidate
exactly when its confidence reaches both the trusted and the rescue
thresholds, unverified.  The edge-density arbitrator returns nothing in
that situation whenever the edge-density verification fails, regardless of
confidence. -/
theorem c9_rescue_only_in_legacy_arbitrator :
    (∀ (hq : Quad) (conf : ℝ),
        conf ≥ App.CONFIDENCE_TRUSTED → conf ≥ App.CONFIDENCE_RESCUE →
        App.arbitrateDetection none (some ⟨hq, conf⟩) = some hq) ∧
    (∀ (hq : Quad) (conf : ℝ) (edgeDensity : Quad → ℝ),
        ¬ edgeDensity hq ≥ App.MIN_EDGE_DENSITY →
        App.arbitrateDetectionEdge none (some ⟨hq, conf⟩) edgeDensity
          = none) := by
  constructor
  · intro hq conf h1 h2
    unfold App.arbitrateDetection App.heatmapTrustedB
    simp [h1, h2]
  · intro hq conf edgeDensity hedge
    unfold App.arbitrateDetectionEdge App.heatmapTrustedB
    cases hb : decide (conf ≥ 0.5) <;>
      simp_all [decide_eq_false hedge]

/-! ### C8 — partial completion by the parallelogram identity -/

/-- C8: whenever exactly one corner of the quad is flagged weak (its
interior angle falls outside `[ANGLE_MIN - 10, ANGLE_MAX + 10]`), the
completed quad replaces exactly that corner by the sum of its two adjacent
corners minus the diagonally opposite corner; consequently, for an exact
parallelogram with the flagged corner arbitrarily perturbed, completion
reconstructs the original corner exactly, with zero tolerance. -/
theorem c8_completion_parallelogram_identity :
    (∀ (c : Quad) (a0 a1 a2 a3 : ℝ),
      (a0 < ANGLE_MIN - 10 ∨ a0 > ANGLE_MAX + 10) →
      ¬ (a1 < ANGLE_MIN - 10 ∨ a1 > ANGLE_MAX + 10) →
      ¬ (a2 < ANGLE_MIN - 10 ∨ a2 > ANGLE_MAX + 10) →
      ¬ (a3 < ANGLE_MIN - 10 ∨ a3 > ANGLE_MAX + 10) →
      completePartialRectangle c [a0, a1, a2, a3] =
        some { c with tl := ⟨c.tr.x + c.bl.x - c.br.x,
                             c.tr.y + c.bl.y - c.br.y⟩ } ∧
      (∀ q : Quad, q.tl.x + q.br.x = q.tr.x + q.bl.x →
        q.tl.y + q.br.y = q.tr.y + q.bl.y →
        ∀ P : Point,
          completePartialRectangle { q with tl := P } [a0, a1, a2, a3]
            = some q)) ∧
    (∀ (c : Quad) (a0 a1 a2 a3 : ℝ),
      ¬ (a0 < ANGLE_MIN - 10 ∨ a0 > ANGLE_MAX + 10) →
      (a1 < ANGLE_MIN - 10 ∨ a1 > ANGLE_MAX + 10) →
      ¬ (a2 < ANGLE_MIN - 10 ∨ a2 > ANGLE_MAX + 10) →
      ¬ (a3 < ANGLE_MIN - 10 ∨ a3 > ANGLE_MAX + 10) →
      completePartialRectangle c [a0, a1, a2, a3] =
        some { c with tr := ⟨c.tl.x + c.br.x - c.bl.x,
                             c.tl.y + c.br.y - c.bl.y⟩ } ∧
      (∀ q : Quad, q.tl.x + q.br.x = q.tr.x + q.bl.x →
        q.tl.y + q.br.y = q.tr.y + q.bl.y →
        ∀ P : Point,
          completePartialRectangle { q with tr := P } [a0, a1, a2, a3]
            = some q)) ∧
    (∀ (c : Quad) (a0 a1 a2 a3 : ℝ),
      ¬ (a0 < ANGLE_MIN - 10 ∨ a0 > ANGLE_MAX + 10) →
      ¬ (a1 < ANGLE_MIN - 10 ∨ a1 > ANGLE_MAX + 10) →
      (a2 < ANGLE_MIN - 10 ∨ a2 > ANGLE_MAX + 10) →
      ¬ (a3 < ANGLE_MIN - 10 ∨ a3 > ANGLE_MAX + 10) →
      completePartialRectangle c [a0, a1, a2, a3] =
        some { c with br := ⟨c.tr.x + c.bl.x - c.tl.x,
                             c.tr.y + c.bl.y - c.tl.y⟩ } ∧
      (∀ q : Quad, q.tl.x + q.br.x = q.tr.x + q.bl.x →
        q.tl.y + q.br.y = q.tr.y + q.bl.y →
        ∀ P : Point,
          completePartialRectangle { q with br := P } [a0, a1, a2, a3]
            = some q)) ∧
    (∀ (c : Quad) (a0 a1 a2 a3 : ℝ),
      ¬ (a0 < ANGLE_MIN - 10 ∨ a0 > ANGLE_MAX + 10) →
      ¬ (a1 < ANGLE_MIN - 10 ∨ a1 > ANGLE_MAX + 10) →
      ¬ (a2 < ANGLE_MIN - 10 ∨ a2 > ANGLE_MAX + 10) →
      (a3 < ANGLE_MIN - 10 ∨ a3 > ANGLE_MAX + 10) →
      completePartialRectangle c [a0, a1, a2, a3] =
        some { c with bl := ⟨c.tl.x + c.br.x - c.tr.x,
                             c.tl.y + c.br.y - c.tr.y⟩ } ∧
      (∀ q : Quad, q.tl.x + q.br.x = q.tr.x + q.bl.x →
        q.tl.y + q.br.y = q.tr.y + q.bl.y →
        ∀ P : Point,
          completePartialRectangle { q with bl := P } [a0, a1, a2, a3]
            = some q)) := by
  refine ⟨?_, ?_, ?_, ?_⟩ <;>
  · intro c a0 a1 a2 a3 h0 h1 h2 h3
    first
    | (have hid : ∀ d : Quad, completePartialRectangle d [a0, a1, a2, a3] =
          some { d with tl := ⟨d.tr.x + d.bl.x - d.br.x,
                               d.tr.y + d.bl.y - d.br.y⟩ } := by
        intro d
        unfold completePartialRectangle
        simp [List.enum, List.enumFrom, List.filter,
          decide_eq_true h0, decide_eq_false h1,
          decide_eq_false h2, decide_eq_false h3])
    | (have hid : ∀ d : Quad, completePartialRectangle d [a0, a1, a2, a3] =
          some { d with tr := ⟨d.tl.x + d.br.x - d.bl.x,
                               d.tl.y + d.br.y - d.bl.y⟩ } := by
        intro d
        unfold completePartialRectangle
        simp [List.enum, List.enumFrom, List.filter,
          decide_eq_false h0, decide_eq_true h1,
          decide_eq_false h2, decide_eq_false h3])
    | (have hid : ∀ d : Quad, completePartialRectangle d [a0, a1, a2, a3] =
          some { d with br := ⟨d.tr.x + d.bl.x - d.tl.x,
                               d.tr.y + d.bl.y - d.tl.y⟩ } := by
        intro d
        unfold completePartialRectangle
        simp [List.enum, List.enumFrom, List.filter,
          decide_eq_false h0, decide_eq_false h1,
          decide_eq_true h2, decide_eq_false h3])
    | (have hid : ∀ d : Quad, completePartialRectangle d [a0, a1, a2, a3] =
          some { d with bl := ⟨d.tl.x + d.br.x - d.tr.x,
                               d.tl.y + d.br.y - d.tr.y⟩ } := by
        intro d
        unfold completePartialRectangle
        simp [List.enum, List.enumFrom, List.filter,
          decide_eq_false h0, decide_eq_false h1,
          decide_eq_false h2, decide_eq_true h3])
    refine ⟨hid c, ?_⟩
    intro q hx hy P
    rw [hid]
    cases q with
    | mk qtl qtr qbr qbl =>
      cases qtl; cases qtr; cases qbr; cases qbl
      simp_all [Quad.mk.injEq, Point.mk.injEq]
      all_goals (first | (constructor <;> linarith) | linarith)

/-- Witness for the C8 completion theorem on a concrete parallelogram with
each corner in turn perturbed and flagged. -/
theorem c8_completion_parallelogram_identity_witness :
    (completePartialRectangle
      { Examples.parQuad with tl := ⟨100, 100⟩ } [10, 90, 90, 90]
        = some Examples.parQuad) ∧
    (completePartialRectangle
      { Examples.parQuad with tr := ⟨100, 100⟩ } [90, 170, 90, 90]
        = some Examples.parQuad) ∧
    (completePartialRectangle
      { Examples.parQuad with br := ⟨100, 100⟩ } [90, 90, 15, 90]
        = some Examples.parQuad) ∧
    (completePartialRectangle
      { Examples.parQuad with bl := ⟨100, 100⟩ } [90, 90, 90, 165]
        = some Examples.parQuad) := by
  have hA : (10 : ℝ) < ANGLE_MIN - 10 ∨ (10 : ℝ) > ANGLE_MAX + 10 := by
    norm_num [ANGLE_MIN, ANGLE_MAX]
  have hB : (170 : ℝ) < ANGLE_MIN - 10 ∨ (170 : ℝ) > ANGLE_MAX + 10 := by
    norm_num [ANGLE_MIN, ANGLE_MAX]
  have hC : (15 : ℝ) < ANGLE_MIN - 10 ∨ (15 : ℝ) > ANGLE_MAX + 10 := by
    norm_num [ANGLE_MIN, ANGLE_MAX]
  have hD : (165 : ℝ) < ANGLE_MIN - 10 ∨ (165 : ℝ) > ANGLE_MAX + 10 := by
    norm_num [ANGLE_MIN, ANGLE_MAX]
  have hok : ¬ ((90 : ℝ) < ANGLE_MIN - 10 ∨ (90 : ℝ) > ANGLE_MAX + 10) := by
    norm_num [ANGLE_MIN, ANGLE_MAX]
  have hpx : Examples.parQuad.tl.x + Examples.parQuad.br.x =
      Examples.parQuad.tr.x + Examples.parQuad.bl.x := by
    norm_num [Examples.parQuad]
  have hpy : Examples.parQuad.tl.y + Examples.parQuad.br.y =
      Examples.parQuad.tr.y + Examples.parQuad.bl.y := by
    norm_num [Examples.parQuad]
  exact ⟨(c8_completion_parallelogram_identity.1 Examples.parQuad 10 90 90 90
            hA hok hok hok).2 Examples.parQuad hpx hpy ⟨100, 100⟩,
         (c8_completion_parallelogram_identity.2.1 Examples.parQuad 90 170 90
            90 hok hB hok hok).2 Examples.parQuad hpx hpy ⟨100, 100⟩,
         (c8_completion_parallelogram_identity.2.2.1 Examples.parQuad 90 90 15
            90 hok hok hC hok).2 Examples.parQuad hpx hpy ⟨100, 100⟩,
         (c8_completion_parallelogram_identity.2.2.2 Examples.parQuad 90 90 90
            165 hok hok hok hD).2 Examples.parQuad hpx hpy ⟨100, 100⟩⟩

/-! ### C7 — idempotence of corner ordering -/

theorem atan2_of_pos (y x : ℝ) (hx : 0 < x) :
    atan2 y x = Real.arctan (y / x) := by
  unfold atan2
  rw [if_pos hx]

theorem atan2_of_neg_nonneg (y x : ℝ) (hx : x < 0) (hy : 0 ≤ y) :
    atan2 y x = Real.arctan (y / x) + Real.pi := by
  unfold atan2
  rw [if_neg (not_lt.mpr hx.le), if_pos ⟨hx, hy⟩]

theorem atan2_of_neg_neg (y x : ℝ) (hx : x < 0) (hy : y < 0) :
    atan2 y x = Real.arctan (y / x) - Real.pi := by
  unfold atan2
  rw [if_neg (not_lt.mpr hx.le),
      if_neg (fun h => absurd h.2 (not_le.mpr hy)),
      if_pos ⟨hx, hy⟩]

theorem c7keyP0 : angleKey ⟨-1, -1⟩ 0 0 = Real.arctan (-1) := by
  unfold angleKey
  dsimp only
  rw [atan2_of_pos (-1 - 0) (-(-1 - 0)) (by norm_num)]
  norm_num

theorem c7keyP1 : angleKey ⟨-2, -2⟩ 0 0 = Real.arctan (-1) := by
  unfold angleKey
  dsimp only
  rw [atan2_of_pos (-2 - 0) (-(-2 - 0)) (by norm_num)]
  norm_num

theorem c7keyP2 : angleKey ⟨4, -1⟩ 0 0 = Real.arctan 4 := by
  unfold angleKey
  dsimp only
  rw [atan2_of_pos (4 - 0) (-(-1 - 0)) (by norm_num)]
  norm_num

theorem c7keyP3 : angleKey ⟨-1, 4⟩ 0 0 = Real.arctan (1 / 4) - Real.pi := by
  unfold angleKey
  dsimp only
  rw [atan2_of_neg_neg (-1 - 0) (-(4 - 0)) (by norm_num) (by norm_num)]
  norm_num

theorem c7key_lt_1 : Real.arctan (1 / 4) - Real.pi < Real.arctan (-1) := by
  rw [show ((-1:ℝ)) = -(1:ℝ) by norm_num, Real.arctan_neg, Real.arctan_one]
  have h := Real.arctan_lt_pi_div_two (1 / 4)
  have hpi := Real.pi_pos
  linarith

theorem c7key_lt_2 : Real.arctan (-1) < Real.arctan 4 := by
  rw [show ((-1:ℝ)) = -(1:ℝ) by norm_num, Real.arctan_neg, Real.arctan_one]
  have h : Real.arctan 0 < Real.arctan 4 :=
    Real.arctan_strictMono (by norm_num : (0:ℝ) < 4)
  rw [Real.arctan_zero] at h
  have hpi := Real.pi_pos
  linarith

theorem c7sort1 :
    ([⟨-1, -1, Real.arctan (-1), 0⟩, ⟨-2, -2, Real.arctan (-1), 1⟩,
      ⟨4, -1, Real.arctan 4, 2⟩,
      ⟨-1, 4, Real.arctan (1 / 4) - Real.pi, 3⟩] :
        List AnglePoint).insertionSort byAngle =
    [⟨-1, 4, Real.arctan (1 / 4) - Real.pi, 3⟩,
     ⟨-1, -1, Real.arctan (-1), 0⟩, ⟨-2, -2, Real.arctan (-1), 1⟩,
     ⟨4, -1, Real.arctan 4, 2⟩] := by
  have hNN : ¬ (Real.arctan 4 ≤ Real.arctan (1 / 4) - Real.pi) :=
    not_le.mpr (c7key_lt_1.trans c7key_lt_2)
  have hN0 : ¬ (Real.arctan (-1) ≤ Real.arctan (1 / 4) - Real.pi) :=
    not_le.mpr c7key_lt_1
  have h02 : Real.arctan (-1) ≤ Real.arctan 4 := c7key_lt_2.le
  have h00 : Real.arctan (-1) ≤ Real.arctan (-1) := le_refl _
  simp only [List.insertionSort, List.orderedInsert, byAngle,
    h02, h00, hNN, hN0, if_true, if_false]

theorem c7sort2 :
    ([⟨-2, -2, Real.arctan (-1), 0⟩, ⟨4, -1, Real.arctan 4, 1⟩,
      ⟨-1, 4, Real.arctan (1 / 4) - Real.pi, 2⟩,
      ⟨-1, -1, Real.arctan (-1), 3⟩] :
        List AnglePoint).insertionSort byAngle =
    [⟨-1, 4, Real.arctan (1 / 4) - Real.pi, 2⟩,
     ⟨-2, -2, Real.arctan (-1), 0⟩, ⟨-1, -1, Real.arctan (-1), 3⟩,
     ⟨4, -1, Real.arctan 4, 1⟩] := by
  have hNN : ¬ (Real.arctan 4 ≤ Real.arctan (1 / 4) - Real.pi) :=
    not_le.mpr (c7key_lt_1.trans c7key_lt_2)
  have hN0 : ¬ (Real.arctan (-1) ≤ Real.arctan (1 / 4) - Real.pi) :=
    not_le.mpr c7key_lt_1
  have hN2 : ¬ (Real.arctan 4 ≤ Real.arctan (-1)) := not_le.mpr c7key_lt_2
  have h30 : Real.arctan (1 / 4) - Real.pi ≤ Real.arctan (-1) :=
    c7key_lt_1.le
  have h00 : Real.arctan (-1) ≤ Real.arctan (-1) := le_refl _
  simp only [List.insertionSort, List.orderedInsert, byAngle,
    h30, h00, hNN, hN0, hN2, if_true, if_false]

/-- C7: counterexample.  The four points `(-1,-1)`, `(-2,-2)`, `(4,-1)`,
`(-1,4)` have centroid `(0,0)`, and the first two share the angle key
`arctan (-1)` (both lie on the same ray from the centroid).  The stable
sort keeps ties in arrival order, so the first ordering pass and the
second pass (whose input arrives rotated) resolve the tie differently:
re-ordering the canonical quad swaps the roles of the tied points, and
`order(order(Q)) ≠ order(Q)`. -/
theorem c7_order_not_idempotent_cex :
    sortCorners [⟨-1, -1⟩, ⟨-2, -2⟩, ⟨4, -1⟩, ⟨-1, 4⟩] =
      some ⟨⟨-2, -2⟩, ⟨4, -1⟩, ⟨-1, 4⟩, ⟨-1, -1⟩⟩ ∧
    ensureOrdered ⟨⟨-2, -2⟩, ⟨4, -1⟩, ⟨-1, 4⟩, ⟨-1, -1⟩⟩ =
      some ⟨⟨-2, -2⟩, ⟨-1, -1⟩, ⟨4, -1⟩, ⟨-1, 4⟩⟩ ∧
    (⟨⟨-2, -2⟩, ⟨4, -1⟩, ⟨-1, 4⟩, ⟨-1, -1⟩⟩ : Quad) ≠
      ⟨⟨-2, -2⟩, ⟨-1, -1⟩, ⟨4, -1⟩, ⟨-1, 4⟩⟩ := by
  refine ⟨?_, ?_, ?_⟩
  · simp only [sortCorners]
    rw [show ((-1:ℝ) + -2 + 4 + -1) / 4 = 0 by norm_num,
        show ((-1:ℝ) + -2 + -1 + 4) / 4 = 0 by norm_num,
        c7keyP0, c7keyP1, c7keyP2, c7keyP3, c7sort1]
    norm_num
  · unfold ensureOrdered
    simp only [sortCorners]
    rw [show ((-2:ℝ) + 4 + -1 + -1) / 4 = 0 by norm_num,
        show ((-2:ℝ) + -1 + 4 + -1) / 4 = 0 by norm_num,
        c7keyP1, c7keyP2, c7keyP3, c7keyP0, c7sort2]
    norm_num
  · intro h
    injection h with h1 h2 h3 h4
    injection h2 with hx hy
    norm_num at hx

/-- C7 (amended): with pairwise-distinct angle keys the ordering is
idempotent.  Stated for four points indexed in strictly increasing key
order about their centroid (every distinct-key input is such a list read
off in key order): whatever quad the first pass produces, re-ordering it
reproduces it exactly.  Ties in the key (as in the counterexample) are the
only way idempotence fails. -/
theorem c7_order_idempotent_of_distinct_keys
    (p0 p1 p2 p3 : Point) (q : Quad)
    (h01 : angleKey p0 ((p0.x + p1.x + p2.x + p3.x) / 4)
        ((p0.y + p1.y + p2.y + p3.y) / 4) <
      angleKey p1 ((p0.x + p1.x + p2.x + p3.x) / 4)
        ((p0.y + p1.y + p2.y + p3.y) / 4))
    (h12 : angleKey p1 ((p0.x + p1.x + p2.x + p3.x) / 4)
        ((p0.y + p1.y + p2.y + p3.y) / 4) <
      angleKey p2 ((p0.x + p1.x + p2.x + p3.x) / 4)
        ((p0.y + p1.y + p2.y + p3.y) / 4))
    (h23 : angleKey p2 ((p0.x + p1.x + p2.x + p3.x) / 4)
        ((p0.y + p1.y + p2.y + p3.y) / 4) <
      angleKey p3 ((p0.x + p1.x + p2.x + p3.x) / 4)
        ((p0.y + p1.y + p2.y + p3.y) / 4))
    (hq : sortCorners [p0, p1, p2, p3] = some q) :
    ensureOrdered q = some q := by
  simp only [sortCorners] at hq
  set cx := (p0.x + p1.x + p2.x + p3.x) / 4 with hcx
  set cy := (p0.y + p1.y + p2.y + p3.y) / 4 with hcy
  have t01 := h01.le
  have t12 := h12.le
  have t23 := h23.le
  have f10 := not_le.mpr h01
  have f21 := not_le.mpr h12
  have f32 := not_le.mpr h23
  have f20 := not_le.mpr (h01.trans h12)
  have f30 := not_le.mpr ((h01.trans h12).trans h23)
  have f31 := not_le.mpr (h12.trans h23)
  simp only [List.insertionSort, List.orderedInsert, byAngle,
    t01, t12, t23, f10, f21, f32, f20, f30, f31, if_true, if_false] at hq
  by_cases hA : p1.x - cx + (p1.y - cy) < p0.x - cx + (p0.y - cy)
  · simp only [if_pos hA] at hq
    by_cases hB : p2.x - cx + (p2.y - cy) < p1.x - cx + (p1.y - cy)
    · simp only [if_pos hB] at hq
      by_cases hC : p3.x - cx + (p3.y - cy) < p2.x - cx + (p2.y - cy)
      · simp only [if_pos hC] at hq
        obtain rfl := Option.some.inj hq
        simp only [ensureOrdered, sortCorners]
        rw [show (p3.x + p0.x + p1.x + p2.x) / 4 = cx by rw [hcx]; ring,
            show (p3.y + p0.y + p1.y + p2.y) / 4 = cy by rw [hcy]; ring]
        simp only [List.insertionSort, List.orderedInsert, byAngle,
          t01, t12, t23, f10, f21, f32, f20, f30, f31, if_true, if_false]
        simp only [if_pos hA, if_pos hB, if_pos hC]
      · simp only [if_neg hC] at hq
        obtain rfl := Option.some.inj hq
        simp only [ensureOrdered, sortCorners]
        rw [show (p2.x + p3.x + p0.x + p1.x) / 4 = cx by rw [hcx]; ring,
            show (p2.y + p3.y + p0.y + p1.y) / 4 = cy by rw [hcy]; ring]
        simp only [List.insertionSort, List.orderedInsert, byAngle,
          t01, t12, t23, f10, f21, f32, f20, f30, f31, if_true, if_false]
        simp only [if_pos hA, if_pos hB, if_neg hC]
    · simp only [if_neg hB] at hq
      by_cases hC : p3.x - cx + (p3.y - cy) < p1.x - cx + (p1.y - cy)
      · simp only [if_pos hC] at hq
        obtain rfl := Option.some.inj hq
        simp only [ensureOrdered, sortCorners]
        rw [show (p3.x + p0.x + p1.x + p2.x) / 4 = cx by rw [hcx]; ring,
            show (p3.y + p0.y + p1.y + p2.y) / 4 = cy by rw [hcy]; ring]
        simp only [List.insertionSort, List.orderedInsert, byAngle,
          t01, t12, t23, f10, f21, f32, f20, f30, f31, if_true, if_false]
        simp only [if_pos hA, if_neg hB, if_pos hC]
      · simp only [if_neg hC] at hq
        obtain rfl := Option.some.inj hq
        simp only [ensureOrdered, sortCorners]
        rw [show (p1.x + p2.x + p3.x + p0.x) / 4 = cx by rw [hcx]; ring,
            show (p1.y + p2.y + p3.y + p0.y) / 4 = cy by rw [hcy]; ring]
        simp only [List.insertionSort, List.orderedInsert, byAngle,
          t01, t12, t23, f10, f21, f32, f20, f30, f31, if_true, if_false]
        simp only [if_pos hA, if_neg hB, if_neg hC]
  · simp only [if_neg hA] at hq
    by_cases hB : p2.x - cx + (p2.y - cy) < p0.x - cx + (p0.y - cy)
    · simp only [if_pos hB] at hq
      by_cases hC : p3.x - cx + (p3.y - cy) < p2.x - cx + (p2.y - cy)
      · simp only [if_pos hC] at hq
        obtain rfl := Option.some.inj hq
        simp only [ensureOrdered, sortCorners]
        rw [show (p3.x + p0.x + p1.x + p2.x) / 4 = cx by rw [hcx]; ring,
            show (p3.y + p0.y + p1.y + p2.y) / 4 = cy by rw [hcy]; ring]
        simp only [List.insertionSort, List.orderedInsert, byAngle,
          t01, t12, t23, f10, f21, f32, f20, f30, f31, if_true, if_false]
        simp only [if_neg hA, if_pos hB, if_pos hC]
      · simp only [if_neg hC] at hq
        obtain rfl := Option.some.inj hq
        simp only [ensureOrdered, sortCorners]
        rw [show (p2.x + p3.x + p0.x + p1.x) / 4 = cx by rw [hcx]; ring,
            show (p2.y + p3.y + p0.y + p1.y) / 4 = cy by rw [hcy]; ring]
        simp only [List.insertionSort, List.orderedInsert, byAngle,
          t01, t12, t23, f10, f21, f32, f20, f30, f31, if_true, if_false]
        simp only [if_neg hA, if_pos hB, if_neg hC]
    · simp only [if_neg hB] at hq
      by_cases hC : p3.x - cx + (p3.y - cy) < p0.x - cx + (p0.y - cy)
      · simp only [if_pos hC] at hq
        obtain rfl := Option.some.inj hq
        simp only [ensureOrdered, sortCorners]
        rw [show (p3.x + p0.x + p1.x + p2.x) / 4 = cx by rw [hcx]; ring,
            show (p3.y + p0.y + p1.y + p2.y) / 4 = cy by rw [hcy]; ring]
        simp only [List.insertionSort, List.orderedInsert, byAngle,
          t01, t12, t23, f10, f21, f32, f20, f30, f31, if_true, if_false]
        simp only [if_neg hA, if_neg hB, if_pos hC]
      · simp only [if_neg hC] at hq
        obtain rfl := Option.some.inj hq
        simp only [ensureOrdered, sortCorners]
        simp only [List.insertionSort, List.orderedInsert, byAngle,
          t01, t12, t23, f10, f21, f32, f20, f30, f31, if_true, if_false]
        simp only [if_neg hA, if_neg hB, if_neg hC]

theorem square_key_0 :
    angleKey ⟨0, 2⟩ 1 1 = Real.arctan 1 - Real.pi := by
  unfold angleKey
  dsimp only
  rw [atan2_of_neg_neg (0 - 1) (-(2 - 1)) (by norm_num) (by norm_num)]
  norm_num

theorem square_key_1 : angleKey ⟨0, 0⟩ 1 1 = Real.arctan (-1) := by
  unfold angleKey
  dsimp only
  rw [atan2_of_pos (0 - 1) (-(0 - 1)) (by norm_num)]
  norm_num

theorem square_key_2 : angleKey ⟨2, 0⟩ 1 1 = Real.arctan 1 := by
  unfold angleKey
  dsimp only
  rw [atan2_of_pos (2 - 1) (-(0 - 1)) (by norm_num)]
  norm_num

theorem square_key_3 :
    angleKey ⟨2, 2⟩ 1 1 = Real.arctan (-1) + Real.pi := by
  unfold angleKey
  dsimp only
  rw [atan2_of_neg_nonneg (2 - 1) (-(2 - 1)) (by norm_num) (by norm_num)]
  norm_num

theorem square_key_lt_1 :
    Real.arctan 1 - Real.pi < Real.arctan (-1) := by
  rw [show ((-1:ℝ)) = -(1:ℝ) by norm_num, Real.arctan_neg, Real.arctan_one]
  have hpi := Real.pi_pos
  linarith

theorem square_key_lt_2 : Real.arctan (-1) < Real.arctan 1 := by
  rw [show ((-1:ℝ)) = -(1:ℝ) by norm_num, Real.arctan_neg, Real.arctan_one]
  have hpi := Real.pi_pos
  linarith

theorem square_key_lt_3 :
    Real.arctan 1 < Real.arctan (-1) + Real.pi := by
  rw [show ((-1:ℝ)) = -(1:ℝ) by norm_num, Real.arctan_neg, Real.arctan_one]
  have hpi := Real.pi_pos
  linarith

theorem square_sort_eval :
    sortCorners [⟨0, 2⟩, ⟨0, 0⟩, ⟨2, 0⟩, ⟨2, 2⟩] =
      some ⟨⟨0, 0⟩, ⟨2, 0⟩, ⟨2, 2⟩, ⟨0, 2⟩⟩ := by
  have hs : ([⟨0, 2, Real.arctan 1 - Real.pi, 0⟩,
      ⟨0, 0, Real.arctan (-1), 1⟩, ⟨2, 0, Real.arctan 1, 2⟩,
      ⟨2, 2, Real.arctan (-1) + Real.pi, 3⟩] :
        List AnglePoint).insertionSort byAngle =
      [⟨0, 2, Real.arctan 1 - Real.pi, 0⟩, ⟨0, 0, Real.arctan (-1), 1⟩,
       ⟨2, 0, Real.arctan 1, 2⟩, ⟨2, 2, Real.arctan (-1) + Real.pi, 3⟩] := by
    have t01 := square_key_lt_1.le
    have t12 := square_key_lt_2.le
    have t23 := square_key_lt_3.le
    simp only [List.insertionSort, List.orderedInsert, byAngle,
      t01, t12, t23, if_true]
  simp only [sortCorners]
  rw [show ((0:ℝ) + 0 + 2 + 2) / 4 = 1 by norm_num,
      show ((2:ℝ) + 0 + 0 + 2) / 4 = 1 by norm_num,
      square_key_0, square_key_1, square_key_2, square_key_3, hs]
  norm_num

/-- C7 (amended) witness: the axis-aligned square `(0,2), (0,0), (2,0),
(2,2)` (listed in increasing key order, keys `arctan 1 - π < arctan (-1) <
arctan 1 < arctan (-1) + π`) sorts to the canonical square, and re-ordering
that canonical square reproduces it. -/
theorem c7_order_idempotent_of_distinct_keys_witness :
    sortCorners [⟨0, 2⟩, ⟨0, 0⟩, ⟨2, 0⟩, ⟨2, 2⟩] =
      some ⟨⟨0, 0⟩, ⟨2, 0⟩, ⟨2, 2⟩, ⟨0, 2⟩⟩ ∧
    ensureOrdered ⟨⟨0, 0⟩, ⟨2, 0⟩, ⟨2, 2⟩, ⟨0, 2⟩⟩ =
      some ⟨⟨0, 0⟩, ⟨2, 0⟩, ⟨2, 2⟩, ⟨0, 2⟩⟩ := by
  have hcx : (((⟨0, 2⟩ : Point).x + (⟨0, 0⟩ : Point).x +
      (⟨2, 0⟩ : Point).x + (⟨2, 2⟩ : Point).x) / 4 : ℝ) = 1 := by norm_num
  have hcy : (((⟨0, 2⟩ : Point).y + (⟨0, 0⟩ : Point).y +
      (⟨2, 0⟩ : Point).y + (⟨2, 2⟩ : Point).y) / 4 : ℝ) = 1 := by norm_num
  refine ⟨square_sort_eval,
    c7_order_idempotent_of_distinct_keys ⟨0, 2⟩ ⟨0, 0⟩ ⟨2, 0⟩ ⟨2, 2⟩
      ⟨⟨0, 0⟩, ⟨2, 0⟩, ⟨2, 2⟩, ⟨0, 2⟩⟩ ?_ ?_ ?_ square_sort_eval⟩
  · rw [hcx, hcy, square_key_0, square_key_1]
    exact square_key_lt_1
  · rw [hcx, hcy, square_key_1, square_key_2]
    exact square_key_lt_2
  · rw [hcx, hcy, square_key_2, square_key_3]
    exact square_key_lt_3

/-- Witness for the C9 amended theorem at concrete confidences. -/
theorem c9_rescue_only_in_legacy_arbitrator_witness :
    App.arbitrateDetection none (some ⟨Examples.quadA, 0.35⟩) =
      some Examples.quadA ∧
    App.arbitrateDetectionEdge none (some ⟨Examples.quadA, 0.9⟩)
        (fun _ => 0) = none :=
  ⟨c9_rescue_only_in_legacy_arbitrator.1 Examples.quadA 0.35
      (by norm_num [App.CONFIDENCE_TRUSTED])
      (by norm_num [App.CONFIDENCE_RESCUE]),
   c9_rescue_only_in_legacy_arbitrator.2 Examples.quadA 0.9 (fun _ => 0)
      (by norm_num [App.MIN_EDGE_DENSITY])⟩

end SmartScanner
